import Mathlib

/-!
# cbo_stat_dump: the statistics replay encoder

A shallow embedding of `internal/dump/export_stats.go`: the literal encoders
`formatFloatArray` and `formatValuesArray`, the per-row statement builder
`getPgStatisticInsertQuery`, the script builder `generateImportSQL`, the document
writer `formatStatisticsJSON`, and the part of `ExportStatistics` that derives the
major version, builds the scope filter and picks the column set; of
`extractRelations` from `internal/dump/query_analyzer.go`; of
`generateImportExtSQL` and the queries of `ExportExtendedStatistics` from
`internal/dump/export_ext_stats.go`; and of the error flow of `Dump`
(`internal/dump/dump.go`) and `ExportGFlags` (`internal/dump/export_misc.go`), where
the calls to the outside are taken by what they answer.

Go strings are Lean strings, `fmt.Sprintf` with `%s` is string concatenation, a
`strings.Builder` is the string written so far, `for ... range` is a left fold,
and `(string, error)` is `Except String String`.

The pieces of the Go standard library the code calls (`strings.ReplaceAll`,
`strings.Join`, `strings.Contains`, `strings.HasPrefix`, the verbs `%v`, `%s`, `%d`,
`%t` of `fmt`) are
written out below from their documented behaviour.
-/

namespace CboStatDump

/-! ## Go library: `strings` -/

/-- Scan of `strings.ReplaceAll` for a non-empty `old`: `skip` counts the characters
of a match that are still to be dropped. -/
def replaceScan (old new : List Char) : Nat → List Char → List Char
  | _, [] => []
  | skip + 1, _ :: s => replaceScan old new skip s
  | 0, c :: s =>
    if old.isPrefixOf (c :: s) then new ++ replaceScan old new (old.length - 1) s
    else c :: replaceScan old new 0 s

/-- Go `strings.ReplaceAll(s, old, new)`: every non-overlapping occurrence of `old`,
found left to right, is replaced by `new`; an empty `old` matches before every
character and at the end. -/
def stringsReplaceAll (s old new : String) : String :=
  if old.data = [] then
    String.mk (new.data ++ (s.data.map (fun c => c :: new.data)).flatten)
  else
    String.mk (replaceScan old.data new.data 0 s.data)

/-- Go `strings.Join(elems, sep)`. -/
def stringsJoin : List String → String → String
  | [], _ => ""
  | a :: rest, sep => if rest.isEmpty then a else a ++ sep ++ stringsJoin rest sep

/-- Substring test on character lists. -/
def containsChars : List Char → List Char → Bool
  | [], sub => sub.isEmpty
  | c :: s, sub => sub.isPrefixOf (c :: s) || containsChars s sub

/-- Go `strings.Contains(s, substr)`. -/
def stringsContains (s substr : String) : Bool :=
  containsChars s.data substr.data

/-! ## Go library: floating-point values and the `%v` verb -/

/-- A Go `float32`/`float64`, kept as the shortest decimal that `strconv` computes
for it: the value of `dec neg d dp` is `±0.d₁d₂…dₙ × 10^dp`, zero has no digit. -/
inductive GoFloat where
  | nan
  | inf (neg : Bool)
  | dec (neg : Bool) (d : List Char) (dp : Int)
deriving DecidableEq, Repr

/-- Digit `j` of a decimal, `'0'` outside the stored digits. -/
def digitAt (d : List Char) (j : Int) : Char :=
  if 0 ≤ j ∧ j < d.length then d.getD j.toNat '0' else '0'

/-- The `%f` layout of `strconv` (`fmtF`) with `prec` fractional digits. -/
def fmtF (neg : Bool) (d : List Char) (dp : Int) (prec : Nat) : String :=
  let sign := if neg then "-" else ""
  let whole :=
    if dp > 0 then
      let m := min d.length dp.toNat
      String.mk (d.take m ++ List.replicate (dp.toNat - m) '0')
    else "0"
  let frac :=
    if prec > 0 then "." ++ String.mk ((List.range prec).map (fun i => digitAt d (dp + i)))
    else ""
  sign ++ whole ++ frac

/-- The two or three exponent digits of the `%e` layout. -/
def expDigits (e : Nat) : List Char :=
  if e < 10 then ['0', Char.ofNat (48 + e)]
  else if e < 100 then [Char.ofNat (48 + e / 10), Char.ofNat (48 + e % 10)]
  else [Char.ofNat (48 + e / 100), Char.ofNat (48 + (e / 10) % 10), Char.ofNat (48 + e % 10)]

/-- The `%e` layout of `strconv` (`fmtE`) with `prec` digits after the point. -/
def fmtE (neg : Bool) (d : List Char) (dp : Int) (prec : Int) : String :=
  let sign := if neg then "-" else ""
  let first := d.headD '0'
  let more :=
    if prec > 0 then
      let m := min d.length (prec.toNat + 1)
      let i := if 1 < m then m else 1
      "." ++ String.mk ((d.take m).drop 1 ++ List.replicate (prec.toNat + 1 - i) '0')
    else ""
  let exp : Int := if d.length = 0 then 0 else dp - 1
  let esign := if exp < 0 then "-" else "+"
  sign ++ String.singleton first ++ more ++ "e" ++ esign ++ String.mk (expDigits exp.natAbs)

/-- The verb `%v` of `fmt` on a float: `%g` with the shortest precision; the
exponent form is used when the decimal exponent is below -4 or at least 6
(`eprec = 6` in `strconv` when the precision is the shortest one). -/
def fmtFloat : GoFloat → String
  | .nan => "NaN"
  | .inf neg => if neg then "-Inf" else "+Inf"
  | .dec neg d dp =>
    let eprec : Int := 6
    let exp := dp - 1
    if exp < -4 ∨ exp ≥ eprec then fmtE neg d dp ((d.length : Int) - 1)
    else fmtF neg d dp ((d.length : Int) - dp).toNat

/-! ## Go library: `interface{}` values and the `%v` verb -/

/-- A Go `interface{}` as the code can hold one: what `encoding/json` decodes into
(`nil`, `bool`, `float64`, `string`, `[]interface{}`, `map[string]interface{}`)
and the `int` the tests put in. A map lists its entries in ascending key order,
the order in which `fmt` prints them. -/
inductive GoValue where
  | nil
  | bool (b : Bool)
  | int (n : Int)
  | float (f : GoFloat)
  | str (s : String)
  | list (xs : List GoValue)
  | map (kvs : List (String × GoValue))

/-- The verb `%t` of `fmt`. -/
def fmtBool (b : Bool) : String := if b then "true" else "false"

/-- The verb `%d` of `fmt` on an integer. -/
def fmtInt (n : Int) : String := toString n

mutual
/-- The verb `%v` of `fmt` on an `interface{}`. -/
def fmtV : GoValue → String
  | .nil => "<nil>"
  | .bool b => fmtBool b
  | .int n => fmtInt n
  | .float f => fmtFloat f
  | .str s => s
  | .list xs => "[" ++ fmtVList xs ++ "]"
  | .map kvs => "map[" ++ fmtVMap kvs ++ "]"
/-- Elements of a slice under `%v`, separated by one space. -/
def fmtVList : List GoValue → String
  | [] => ""
  | x :: rest => if rest.isEmpty then fmtV x else fmtV x ++ " " ++ fmtVList rest
/-- Entries of a map under `%v`, `key:value` separated by one space. -/
def fmtVMap : List (String × GoValue) → String
  | [] => ""
  | (k, x) :: rest =>
    if rest.isEmpty then k ++ ":" ++ fmtV x else k ++ ":" ++ fmtV x ++ " " ++ fmtVMap rest
end

/-! ## Data model (`export_stats.go`, lines 36-80) -/

/-- Go `PgClassStats`. -/
structure PgClassStats where
  Relname : String
  Relpages : Int
  Reltuples : GoFloat
  Relallvisible : Int
  Nspname : String

/-- Go `PgStatisticStats`. A `[]float32` field is `none` when the slice is nil. -/
structure PgStatisticStats where
  Nspname : String
  Relname : String
  Attname : String
  Typnspname : String
  Typname : String
  Stainherit : Bool
  Stanullfrac : GoFloat
  Stawidth : Int
  Stadistinct : GoFloat
  Stakind1 : Int
  Stakind2 : Int
  Stakind3 : Int
  Stakind4 : Int
  Stakind5 : Int
  Staop1 : GoValue
  Staop2 : GoValue
  Staop3 : GoValue
  Staop4 : GoValue
  Staop5 : GoValue
  Stanumbers1 : Option (List GoFloat)
  Stanumbers2 : Option (List GoFloat)
  Stanumbers3 : Option (List GoFloat)
  Stanumbers4 : Option (List GoFloat)
  Stanumbers5 : Option (List GoFloat)
  Stacoll1 : GoValue
  Stacoll2 : GoValue
  Stacoll3 : GoValue
  Stacoll4 : GoValue
  Stacoll5 : GoValue
  Stavalues1 : GoValue
  Stavalues2 : GoValue
  Stavalues3 : GoValue
  Stavalues4 : GoValue
  Stavalues5 : GoValue

/-! ## The literal encoders (`export_stats.go`, lines 457-488) -/

/-- Go `formatFloatArray`. -/
def formatFloatArray (nums : Option (List GoFloat)) (typ : String) : String :=
  match nums with
  | none => "NULL::" ++ typ
  | some ns =>
    let strs := ns.foldl (fun strs n => strs ++ [fmtFloat n]) []
    "'\x7b" ++ stringsJoin strs "," ++ "\x7d'::" ++ typ

/-- The three `strings.ReplaceAll` calls of `formatValuesArray`, in the order of the
source, with the constants of the source: two backslashes become three, a double
quote gets a backslash in front, a single quote is doubled. -/
def escapeElement (strVal : String) : String :=
  let strVal := stringsReplaceAll strVal "\\\\" "\\\\\\"
  let strVal := stringsReplaceAll strVal "\"" "\\\""
  stringsReplaceAll strVal "'" "''"

/-- Go `formatValuesArray`. -/
def formatValuesArray (val : GoValue) (typ : String) : String :=
  match val with
  | .nil => "NULL::" ++ typ
  | .list listVal =>
    let elements :=
      listVal.foldl (fun elements e => elements ++ ["\"" ++ escapeElement (fmtV e) ++ "\""]) []
    "array_in('\x7b" ++ stringsJoin elements ", " ++ "\x7d', '" ++ typ ++ "'::regtype, -1)::anyarray"
  | _ => "NULL::" ++ typ

/-! ## `getPgStatisticInsertQuery` (`export_stats.go`, lines 327-455) -/

/-- A Go `map[string]string`: the first entry for a key is the current one. -/
abbrev StrMap := List (String × String)

/-- Map read `m[k]`, the empty string when the key is missing. -/
def mapGet (m : StrMap) (k : String) : String :=
  match m.lookup k with
  | some v => v
  | none => ""

/-- Map write `m[k] = v`. -/
def mapSet (m : StrMap) (k v : String) : StrMap := (k, v) :: m

/-- The map literal `columnTypes` starts from. -/
def baseColumnTypes : StrMap :=
  [("stainherit", "boolean"), ("stanullfrac", "real"), ("stawidth", "integer"),
   ("stadistinct", "real"),
   ("stakind1", "smallint"), ("stakind2", "smallint"), ("stakind3", "smallint"),
   ("stakind4", "smallint"), ("stakind5", "smallint"),
   ("staop1", "oid"), ("staop2", "oid"), ("staop3", "oid"), ("staop4", "oid"), ("staop5", "oid"),
   ("stanumbers1", "real[]"), ("stanumbers2", "real[]"), ("stanumbers3", "real[]"),
   ("stanumbers4", "real[]"), ("stanumbers5", "real[]")]

/-- The runtime type of the column, `pg_catalog` when no schema is given. -/
def stavaluesType (stat : PgStatisticStats) : String :=
  if stat.Typnspname = "" then "pg_catalog." ++ stat.Typname
  else stat.Typnspname ++ "." ++ stat.Typname

/-- The map `columnTypes` after lines 350-364. -/
def columnTypes (pgMajorVersion : Int) (stat : PgStatisticStats) : StrMap :=
  let m := baseColumnTypes
  let m :=
    if pgMajorVersion ≥ 15 then
      mapSet (mapSet (mapSet (mapSet (mapSet m "stacoll1" "oid") "stacoll2" "oid")
        "stacoll3" "oid") "stacoll4" "oid") "stacoll5" "oid"
    else m
  [1, 2, 3, 4, 5].foldl (fun m i => mapSet m ("stavalues" ++ fmtInt i) (stavaluesType stat)) m

/-- The slice `orderedCols` after lines 368-378. -/
def orderedCols (pgMajorVersion : Int) : List String :=
  let cols :=
    ["stainherit", "stanullfrac", "stawidth", "stadistinct",
     "stakind1", "stakind2", "stakind3", "stakind4", "stakind5",
     "staop1", "staop2", "staop3", "staop4", "staop5"]
  let cols :=
    if pgMajorVersion ≥ 15 then
      cols ++ ["stacoll1", "stacoll2", "stacoll3", "stacoll4", "stacoll5"]
    else cols
  cols ++ ["stanumbers1", "stanumbers2", "stanumbers3", "stanumbers4", "stanumbers5",
           "stavalues1", "stavalues2", "stavalues3", "stavalues4", "stavalues5"]

/-- The `switch col` of lines 384-443: the text of one value. -/
def renderColumn (stat : PgStatisticStats) (col typ : String) : String :=
  match col with
  | "stainherit" => fmtBool stat.Stainherit ++ "::" ++ typ
  | "stanullfrac" => fmtFloat stat.Stanullfrac ++ "::" ++ typ
  | "stawidth" => fmtInt stat.Stawidth ++ "::" ++ typ
  | "stadistinct" => fmtFloat stat.Stadistinct ++ "::" ++ typ
  | "stakind1" => fmtInt stat.Stakind1 ++ "::" ++ typ
  | "stakind2" => fmtInt stat.Stakind2 ++ "::" ++ typ
  | "stakind3" => fmtInt stat.Stakind3 ++ "::" ++ typ
  | "stakind4" => fmtInt stat.Stakind4 ++ "::" ++ typ
  | "stakind5" => fmtInt stat.Stakind5 ++ "::" ++ typ
  | "staop1" => fmtV stat.Staop1 ++ "::" ++ typ
  | "staop2" => fmtV stat.Staop2 ++ "::" ++ typ
  | "staop3" => fmtV stat.Staop3 ++ "::" ++ typ
  | "staop4" => fmtV stat.Staop4 ++ "::" ++ typ
  | "staop5" => fmtV stat.Staop5 ++ "::" ++ typ
  | "stacoll1" => fmtV stat.Stacoll1 ++ "::" ++ typ
  | "stacoll2" => fmtV stat.Stacoll2 ++ "::" ++ typ
  | "stacoll3" => fmtV stat.Stacoll3 ++ "::" ++ typ
  | "stacoll4" => fmtV stat.Stacoll4 ++ "::" ++ typ
  | "stacoll5" => fmtV stat.Stacoll5 ++ "::" ++ typ
  | "stanumbers1" => formatFloatArray stat.Stanumbers1 typ
  | "stanumbers2" => formatFloatArray stat.Stanumbers2 typ
  | "stanumbers3" => formatFloatArray stat.Stanumbers3 typ
  | "stanumbers4" => formatFloatArray stat.Stanumbers4 typ
  | "stanumbers5" => formatFloatArray stat.Stanumbers5 typ
  | "stavalues1" => formatValuesArray stat.Stavalues1 typ
  | "stavalues2" => formatValuesArray stat.Stavalues2 typ
  | "stavalues3" => formatValuesArray stat.Stavalues3 typ
  | "stavalues4" => formatValuesArray stat.Stavalues4 typ
  | "stavalues5" => formatValuesArray stat.Stavalues5 typ
  | _ => ""

/-- The slice `columnValues` after the loop of lines 380-445. -/
def columnValues (pgMajorVersion : Int) (stat : PgStatisticStats) : List String :=
  (orderedCols pgMajorVersion).foldl
    (fun columnValues col =>
      columnValues ++ [renderColumn stat col (mapGet (columnTypes pgMajorVersion stat) col)])
    []

/-- The text `starelid` of line 447. -/
def starelidOf (stat : PgStatisticStats) : String :=
  "'" ++ stat.Nspname ++ "." ++ stat.Relname ++ "'::regclass"

/-- The text `staattnumSubquery` of line 448. -/
def staattnumSubqueryOf (stat : PgStatisticStats) : String :=
  "(SELECT a.attnum FROM pg_attribute a WHERE a.attrelid = " ++ starelidOf stat ++
    " and a.attname = '" ++ stat.Attname ++ "')"

/-- Go `getPgStatisticInsertQuery`. -/
def getPgStatisticInsertQuery (pgMajorVersion : Int) (stat : PgStatisticStats) :
    Except String String :=
  let starelid := starelidOf stat
  let staattnumSubquery := staattnumSubqueryOf stat
  let vals := stringsJoin (columnValues pgMajorVersion stat) ", "
  let query :=
    "DELETE FROM pg_statistic WHERE starelid = " ++ starelid ++ " AND staattnum = " ++
      staattnumSubquery ++ ";\nINSERT INTO pg_statistic VALUES (" ++ starelid ++ ", " ++
      staattnumSubquery ++ ", " ++ vals ++ ");"
  .ok query

/-! ## `generateImportSQL` (`export_stats.go`, lines 297-325) -/

/-- The `UPDATE pg_class` line written for one relation (lines 306-308). -/
def updateClassLine (cls : PgClassStats) : String :=
  "UPDATE pg_class SET reltuples = " ++ fmtFloat cls.Reltuples ++ ", relpages = " ++
    fmtInt cls.Relpages ++ ", relallvisible = " ++ fmtInt cls.Relallvisible ++
    " WHERE relnamespace = '" ++ cls.Nspname ++ "'::regnamespace AND (relname = '" ++
    cls.Relname ++ "' OR relname = '" ++ cls.Relname ++ "_pkey');\n"

/-- The loop of lines 311-317 over the column statistic rows, on the builder `sb`:
the first error ends the function. -/
def writeStatRows (pgVersion : Int) : List PgStatisticStats → String → Except String String
  | [], sb => .ok sb
  | stat :: rest, sb =>
    match getPgStatisticInsertQuery pgVersion stat with
    | .error err => .error err
    | .ok sql => writeStatRows pgVersion rest (sb ++ (sql ++ "\n"))

/-- Go `generateImportSQL`. -/
def generateImportSQL (ybMode : Bool) (pgVersion : Int) (pgClass : List PgClassStats)
    (pgStat : List PgStatisticStats) : Except String String :=
  let sb := ""
  let sb := if ybMode then sb ++ "SET yb_non_ddl_txn_for_sys_tables_allowed = ON;\n\n" else sb
  let sb := pgClass.foldl (fun sb cls => sb ++ updateClassLine cls) sb
  match writeStatRows pgVersion pgStat sb with
  | .error err => .error err
  | .ok sb =>
    let sb :=
      if ybMode then
        (sb ++ "\nupdate pg_yb_catalog_version set current_version=current_version+1 where db_oid=1;\n")
          ++ "SET yb_non_ddl_txn_for_sys_tables_allowed = OFF;\n"
      else sb
    .ok sb

/-! ## `ExportStatistics`: version and column set (`export_stats.go`, lines 88-220) -/

/-- Line 90: the major version from the scanned `server_version_num`; Go's `/` on
`int` truncates toward zero. -/
def pgMajorVersionOf (serverVersionNum : Int) : Int :=
  Int.tdiv serverVersionNum 10000

/-- The select list of the `pg_statistic` query: lines 140-168 below version 15,
lines 180-213 from version 15 on. -/
def statSelectList (pgMajorVersion : Int) : List String :=
  let head :=
    ["n.nspname nspname", "c.relname relname", "a.attname attname",
     "(select nspname from pg_namespace where oid = t.typnamespace) typnspname",
     "t.typname typname",
     "s.stainherit", "s.stanullfrac", "s.stawidth", "s.stadistinct",
     "s.stakind1", "s.stakind2", "s.stakind3", "s.stakind4", "s.stakind5",
     "s.staop1", "s.staop2", "s.staop3", "s.staop4", "s.staop5",
     "s.stanumbers1", "s.stanumbers2", "s.stanumbers3", "s.stanumbers4", "s.stanumbers5"]
  let values := ["s.stavalues1", "s.stavalues2", "s.stavalues3", "s.stavalues4", "s.stavalues5"]
  if pgMajorVersion < 15 then head ++ values
  else head ++ ["s.stacoll1", "s.stacoll2", "s.stacoll3", "s.stacoll4", "s.stacoll5"] ++ values

/-- The text `queryStat` of lines 136-220, one select item per line. -/
def queryStat (pgMajorVersion : Int) (schemasFilter relationNamesFilter : String) : String :=
  "\n            SELECT row_to_json(t) FROM\n                (SELECT\n                    " ++
    stringsJoin (statSelectList pgMajorVersion) ",\n                    " ++
    "\n                    FROM pg_class c\n" ++
    "                        JOIN pg_namespace n on c.relnamespace = n.oid " ++
    schemasFilter ++ " " ++ relationNamesFilter ++ "\n" ++
    "                        JOIN pg_statistic s ON s.starelid = c.oid\n" ++
    "                        JOIN pg_attribute a ON c.oid = a.attrelid AND s.staattnum = a.attnum\n" ++
    "                        JOIN pg_type t ON a.atttypid = t.oid) t\n            "

/-! ## The row of `TestGetPgStatisticInsertQuery` (`export_stats_test.go`, lines 9-23) -/

/-- The float `0.5`. -/
def half : GoFloat := .dec false ['5'] 0

/-- The row the test builds; the fields it leaves out hold Go's zero value. -/
def testStat : PgStatisticStats where
  Nspname := "public"
  Relname := "users"
  Attname := "id"
  Typnspname := "pg_catalog"
  Typname := "int4"
  Stainherit := false
  Stanullfrac := .dec false [] 0
  Stawidth := 4
  Stadistinct := .dec true ['1'] 1
  Stakind1 := 1
  Stakind2 := 0
  Stakind3 := 0
  Stakind4 := 0
  Stakind5 := 0
  Staop1 := .int 96
  Staop2 := .nil
  Staop3 := .nil
  Staop4 := .nil
  Staop5 := .nil
  Stanumbers1 := some [half, half]
  Stanumbers2 := none
  Stanumbers3 := none
  Stanumbers4 := none
  Stanumbers5 := none
  Stacoll1 := .nil
  Stacoll2 := .nil
  Stacoll3 := .nil
  Stacoll4 := .nil
  Stacoll5 := .nil
  Stavalues1 := .list [.int 10, .int 20]
  Stavalues2 := .nil
  Stavalues3 := .nil
  Stavalues4 := .nil
  Stavalues5 := .nil

/-- A row changed to the column of the test: type `pg_catalog.int4`, first values
array `[10, 20]`; every other field is kept. -/
def withIntValues (stat : PgStatisticStats) : PgStatisticStats :=
  { stat with
    Typnspname := "pg_catalog"
    Typname := "int4"
    Stavalues1 := GoValue.list [GoValue.int 10, GoValue.int 20] }

/-- The `float64` values 10 and 20, as `encoding/json` decodes the numbers `10`
and `20`. -/
def ten : GoFloat := .dec false ['1'] 2

/-- See `ten`. -/
def twenty : GoFloat := .dec false ['2'] 2

/-! ## Reading aids for the statements below -/

/-- All strings of a list, one after the other. -/
def concatAll : List String → String
  | [] => ""
  | a :: rest => a ++ concatAll rest

/-- The values of the scalar, kind and operator fields of a row, in the order
stainherit, stanullfrac, stawidth, stadistinct, stakind1..5, staop1..5. -/
def headValues (stat : PgStatisticStats) : List String :=
  [fmtBool stat.Stainherit ++ "::boolean", fmtFloat stat.Stanullfrac ++ "::real",
   fmtInt stat.Stawidth ++ "::integer", fmtFloat stat.Stadistinct ++ "::real",
   fmtInt stat.Stakind1 ++ "::smallint", fmtInt stat.Stakind2 ++ "::smallint",
   fmtInt stat.Stakind3 ++ "::smallint", fmtInt stat.Stakind4 ++ "::smallint",
   fmtInt stat.Stakind5 ++ "::smallint",
   fmtV stat.Staop1 ++ "::oid", fmtV stat.Staop2 ++ "::oid", fmtV stat.Staop3 ++ "::oid",
   fmtV stat.Staop4 ++ "::oid", fmtV stat.Staop5 ++ "::oid"]

/-- The values of the collation fields of a row, stacoll1..5. -/
def collValues (stat : PgStatisticStats) : List String :=
  [fmtV stat.Stacoll1 ++ "::oid", fmtV stat.Stacoll2 ++ "::oid", fmtV stat.Stacoll3 ++ "::oid",
   fmtV stat.Stacoll4 ++ "::oid", fmtV stat.Stacoll5 ++ "::oid"]

/-- The values of the array fields of a row, stanumbers1..5 then stavalues1..5. -/
def tailValues (stat : PgStatisticStats) : List String :=
  [formatFloatArray stat.Stanumbers1 "real[]", formatFloatArray stat.Stanumbers2 "real[]",
   formatFloatArray stat.Stanumbers3 "real[]", formatFloatArray stat.Stanumbers4 "real[]",
   formatFloatArray stat.Stanumbers5 "real[]",
   formatValuesArray stat.Stavalues1 (stavaluesType stat),
   formatValuesArray stat.Stavalues2 (stavaluesType stat),
   formatValuesArray stat.Stavalues3 (stavaluesType stat),
   formatValuesArray stat.Stavalues4 (stavaluesType stat),
   formatValuesArray stat.Stavalues5 (stavaluesType stat)]

/-! ## `formatStatisticsJSON` (`export_stats.go`, lines 262-295) -/

/-- One `for i, row := range rows` loop of `formatStatisticsJSON` from index `i` on,
`n` being `len(rows)`; a raw row is the text of its bytes. -/
def writeRawRows (n : Nat) : Nat → List String → String → String
  | _, [], sb => sb
  | i, row :: rest, sb =>
    let sb := sb ++ "        "
    let sb := sb ++ row
    let sb := if (i : Int) < (n : Int) - 1 then sb ++ "," else sb
    let sb := sb ++ "\n"
    writeRawRows n (i + 1) rest sb

/-- Go `formatStatisticsJSON`. -/
def formatStatisticsJSON (version : String) (pgClass pgStatistic : List String) : String :=
  let sb := ""
  let sb := sb ++ "\x7b\n"
  let sb := sb ++ ("    \"version\": \"" ++ version ++ "\",\n")
  let sb := sb ++ "    \"pg_class\": [\n"
  let sb := writeRawRows pgClass.length 0 pgClass sb
  let sb := sb ++ "    ],\n"
  let sb := sb ++ "    \"pg_statistic\": [\n"
  let sb := writeRawRows pgStatistic.length 0 pgStatistic sb
  let sb := sb ++ "    ]\n"
  sb ++ "\x7d"

/-! ## `extractRelations` (`query_analyzer.go`, lines 15-21 and 76-89) -/

/-- Go `Plan`: node type, relation name, schema, alias, child plans. -/
inductive Plan where
  | mk (NodeType RelationName Schema Alias : String) (Plans : List Plan)

/-- The key set of a Go `map[string]bool` whose values are all `true`, and the
write `relations[name] = true` on it. -/
def setTrue (relations : List String) (name : String) : List String :=
  if name ∈ relations then relations else relations ++ [name]

mutual
/-- Go `extractRelations`: returns the map after the call. -/
def extractRelations : Plan → List String → List String
  | .mk _ relationName schema _ plans, relations =>
    let relations :=
      if relationName ≠ "" then
        let name := if schema ≠ "" then schema ++ "." ++ relationName else relationName
        setTrue relations name
      else relations
    extractRelationsEach plans relations
/-- The loop `for _, subPlan := range plan.Plans` of `extractRelations`. -/
def extractRelationsEach : List Plan → List String → List String
  | [], relations => relations
  | subPlan :: rest, relations => extractRelationsEach rest (extractRelations subPlan relations)
end

/-! ## `generateImportExtSQL` (`export_ext_stats.go`, lines 34-41 and 140-280) -/

mutual
/-- The verb `%s` of `fmt` on an `interface{}`: a string is written as it is, a
value of another type as `%!s(type=value)`, a slice or map element by element. -/
def fmtS : GoValue → String
  | .nil => "%!s(<nil>)"
  | .bool b => "%!s(bool=" ++ fmtBool b ++ ")"
  | .int n => "%!s(int=" ++ fmtInt n ++ ")"
  | .float f => "%!s(float64=" ++ fmtFloat f ++ ")"
  | .str s => s
  | .list xs => "[" ++ fmtSList xs ++ "]"
  | .map kvs => "map[" ++ fmtSMap kvs ++ "]"
/-- An element of a slice or map under `%s`; a nil element is `<nil>`. -/
def fmtSElem : GoValue → String
  | .nil => "<nil>"
  | .bool b => "%!s(bool=" ++ fmtBool b ++ ")"
  | .int n => "%!s(int=" ++ fmtInt n ++ ")"
  | .float f => "%!s(float64=" ++ fmtFloat f ++ ")"
  | .str s => s
  | .list xs => "[" ++ fmtSList xs ++ "]"
  | .map kvs => "map[" ++ fmtSMap kvs ++ "]"
/-- Elements of a slice under `%s`, separated by one space. -/
def fmtSList : List GoValue → String
  | [] => ""
  | x :: rest => if rest.isEmpty then fmtSElem x else fmtSElem x ++ " " ++ fmtSList rest
/-- Entries of a map under `%s`, `key:value` separated by one space. -/
def fmtSMap : List (String × GoValue) → String
  | [] => ""
  | (k, x) :: rest =>
    if rest.isEmpty then k ++ ":" ++ fmtSElem x else k ++ ":" ++ fmtSElem x ++ " " ++ fmtSMap rest
end

/-- Go `strings.HasPrefix(s, p)`. -/
def stringsHasPrefix (s p : String) : Bool :=
  p.data.isPrefixOf s.data

/-- Go `PgStatisticExtData`; `Stxdexpr` is `none` when the slice is nil. -/
structure PgStatisticExtData where
  Stxname : String
  Stxdinherit : Bool
  Stxdndistinct : GoValue
  Stxddependencies : GoValue
  Stxdmcv : GoValue
  Stxdexpr : Option (List GoValue)

/-- A Go `map[string]interface{}` read `statMap[k]`: the value and whether the key
exists. -/
def mapLookup (statMap : List (String × GoValue)) (k : String) : Option GoValue :=
  statMap.lookup k

/-- The slice `keys` after lines 198-211. -/
def extKeys (statMap : List (String × GoValue)) : List String :=
  let keys :=
    ["starelid", "staattnum", "stainherit", "stanullfrac", "stawidth", "stadistinct",
     "stakind1", "stakind2", "stakind3", "stakind4", "stakind5",
     "staop1", "staop2", "staop3", "staop4", "staop5"]
  let keys :=
    match mapLookup statMap "stacoll1" with
    | some _ => keys ++ ["stacoll1", "stacoll2", "stacoll3", "stacoll4", "stacoll5"]
    | none => keys
  keys ++ ["stanumbers1", "stanumbers2", "stanumbers3", "stanumbers4", "stanumbers5",
           "stavalues1", "stavalues2", "stavalues3", "stavalues4", "stavalues5"]

/-- The three `strings.ReplaceAll` calls of lines 248-250: a backslash becomes two,
a double quote gets a backslash in front, a single quote is doubled. -/
def escapeExtElement (s : String) : String :=
  let s := stringsReplaceAll s "\\" "\\\\"
  let s := stringsReplaceAll s "\"" "\\\""
  stringsReplaceAll s "'" "''"

/-- The text appended to `rowValues` for a key that exists in the record
(lines 222-260). -/
def renderExtValue (k : String) (val : GoValue) : String :=
  match val with
  | .nil => "NULL"
  | val =>
    if stringsHasPrefix k "stanumbers" then
      match val with
      | .list nums =>
        let nStrs := nums.foldl (fun nStrs n => nStrs ++ [fmtV n]) []
        "ARRAY[" ++ stringsJoin nStrs "," ++ "]::real[]"
      | _ => "NULL"
    else if stringsHasPrefix k "stavalues" then
      match val with
      | .list vals =>
        let vStrs := vals.foldl (fun vStrs v => vStrs ++ ["\"" ++ escapeExtElement (fmtV v) ++ "\""]) []
        "array_in('\x7b" ++ stringsJoin vStrs "," ++
          "\x7d', 'pg_catalog.int4'::regtype, -1)::anyarray"
      | _ => "NULL"
    else "'" ++ fmtV val ++ "'"

/-- The slice `rowValues` after the loop of lines 213-261. -/
def extRowValues (statMap : List (String × GoValue)) : List String :=
  (extKeys statMap).foldl
    (fun rowValues k =>
      match mapLookup statMap k with
      | none => rowValues ++ ["NULL"]
      | some val => rowValues ++ [renderExtValue k val])
    []

/-- The slice `arrayElements` after the loop of lines 176-263: an item that is not
a `map[string]interface{}` is passed over. -/
def extArrayElements (items : List GoValue) : List String :=
  items.foldl
    (fun arrayElements item =>
      match item with
      | .map statMap => arrayElements ++ ["(" ++ stringsJoin (extRowValues statMap) ", " ++ ")"]
      | _ => arrayElements)
    []

/-- The text of one of the three blobs (lines 147-158). -/
def blobText (v : GoValue) : String :=
  match v with
  | .nil => "NULL"
  | v => "'" ++ fmtS v ++ "'::bytea"

/-- The text `stxdexpr` of lines 160-265. -/
def stxdexprText (data : PgStatisticExtData) : String :=
  match data.Stxdexpr with
  | none => "NULL"
  | some items => "ARRAY[" ++ stringsJoin (extArrayElements items) ", " ++ "]::pg_statistic[]"

/-- The `DELETE` line written for one payload (lines 267-268). -/
def extDeleteLine (data : PgStatisticExtData) : String :=
  "DELETE FROM pg_statistic_ext_data WHERE stxoid = " ++
    "(SELECT oid FROM pg_statistic_ext WHERE stxname='" ++ data.Stxname ++ "');\n"

/-- The `INSERT` line written for one payload (lines 269-271). -/
def extInsertLine (data : PgStatisticExtData) : String :=
  "INSERT INTO pg_statistic_ext_data VALUES (" ++
    "(SELECT oid FROM pg_statistic_ext WHERE stxname='" ++ data.Stxname ++ "'), " ++
    fmtBool data.Stxdinherit ++ ", " ++ blobText data.Stxdndistinct ++ ", " ++
    blobText data.Stxddependencies ++ ", " ++ blobText data.Stxdmcv ++ ", " ++
    stxdexprText data ++ ");\n"

/-- Go `generateImportExtSQL`. -/
def generateImportExtSQL (ybMode : Bool) (pgStatExtData : List PgStatisticExtData) :
    Except String String :=
  let sb := ""
  let sb := if ybMode then sb ++ "SET yb_non_ddl_txn_for_sys_tables_allowed = ON;\n\n" else sb
  let sb := pgStatExtData.foldl (fun sb data => (sb ++ extDeleteLine data) ++ extInsertLine data) sb
  let sb :=
    if ybMode then
      (sb ++ "\nupdate pg_yb_catalog_version set current_version=current_version+1 where db_oid=1;\n")
        ++ "SET yb_non_ddl_txn_for_sys_tables_allowed = OFF;\n"
    else sb
  .ok sb

/-! ## The inputs of `TestGenerateImportSQL` (`export_stats_test.go`, lines 49-58) -/

/-- The float `1000`. -/
def thousand : GoFloat := .dec false ['1'] 4

/-- The relation the test builds. -/
def testClass : PgClassStats where
  Relname := "users"
  Relpages := 10
  Reltuples := thousand
  Relallvisible := 0
  Nspname := "public"

/-! ## Reading aids for the later statements -/

/-- The row lines of one array of the document: each row after eight spaces, a
comma after every row but the last, a newline after every row. -/
def rowLines : List String → String
  | [] => ""
  | row :: rest =>
    "        " ++ row ++ (if rest.isEmpty then "" else ",") ++ "\n" ++ rowLines rest

mutual
/-- The qualified names a plan tree refers to, node by node, parent before
children and children left to right, repetitions kept: a node with a relation name
gives `schema.name`, or the bare name when it has no schema; a node without a
relation name gives nothing. -/
def planNames : Plan → List String
  | .mk _ relationName schema _ plans =>
    (if relationName = "" then []
     else [if schema = "" then relationName else schema ++ "." ++ relationName]) ++
      planNamesEach plans
/-- The names of a list of plan trees, see `planNames`. -/
def planNamesEach : List Plan → List String
  | [] => []
  | plan :: rest => planNames plan ++ planNamesEach rest
end

/-- A plan for a join of `public.orders` and `public.customers`. -/
def ordersCustomersPlan : Plan :=
  .mk "Hash Join" "" "" ""
    [.mk "Seq Scan" "orders" "public" "o" [],
     .mk "Hash" "" "" "" [.mk "Seq Scan" "customers" "public" "c" []]]

/-- A plan that reads `orders` twice (once without schema), and `public.customers`
below a node that has no relation name. -/
def repeatedPlan : Plan :=
  .mk "Nested Loop" "" "" ""
    [.mk "Seq Scan" "orders" "public" "o1" [],
     .mk "Materialize" "" "" ""
       [.mk "Index Scan" "orders" "public" "o2" [.mk "Seq Scan" "customers" "public" "c" []],
        .mk "Seq Scan" "orders" "" "o3" []]]

/-- A payload with its per-expression array taken away (a nil `Stxdexpr`), the rest
kept. -/
def withoutExpr (data : PgStatisticExtData) : PgStatisticExtData :=
  { data with Stxdexpr := none }

/-- A payload whose per-expression array is the given list of records, the rest
kept. -/
def withExprRecords (data : PgStatisticExtData) (records : List (List (String × GoValue))) :
    PgStatisticExtData :=
  { data with Stxdexpr := some (records.map GoValue.map) }

/-- A per-expression record with the numbers `[0.5, 0.5]` and the values `[10, 20]`
in its first slot. -/
def slotRecord : List (String × GoValue) :=
  [("stanumbers1", GoValue.list [GoValue.float half, GoValue.float half]),
   ("stavalues1", GoValue.list [GoValue.float ten, GoValue.float twenty])]

/-- A payload whose only per-expression record is `slotRecord`. -/
def slotPayload : PgStatisticExtData where
  Stxname := "s1"
  Stxdinherit := false
  Stxdndistinct := GoValue.nil
  Stxddependencies := GoValue.nil
  Stxdmcv := GoValue.nil
  Stxdexpr := some [GoValue.map slotRecord]

/-- The single quote character. -/
def singleQuote : Char := Char.ofNat 39

/-- Whether every single quote of a text stands in a pair of adjacent single quotes,
read from the left: the body of a well-formed single-quoted SQL literal. -/
def quotesPaired : List Char → Bool
  | [] => true
  | c :: rest =>
    if c = singleQuote then
      match rest with
      | [] => false
      | c2 :: rest2 => if c2 = singleQuote then quotesPaired rest2 else false
    else quotesPaired rest

/-- A text with each of its single quotes written twice. -/
def doubleQuotes : List Char → List Char
  | [] => []
  | c :: s =>
    if c = singleQuote then singleQuote :: singleQuote :: doubleQuotes s
    else c :: doubleQuotes s

/-- The row of the test with a single quote in its relation name. -/
def quoteStat : PgStatisticStats :=
  { testStat with Relname := "o'brien" }

/-! ## The scope filter and the queries (`export_stats.go`, lines 92-109;
`export_ext_stats.go`, lines 44-65 and 87-92) -/

/-- The text `schemasFilter`, the same literal in `ExportStatistics` (line 92) and in
`ExportExtendedStatistics` (line 44). -/
def schemasFilter : String :=
  " AND n.nspname NOT IN ('pg_catalog', 'pg_toast', 'information_schema')"

/-- The text `relationNamesFilter` of `ExportStatistics` after lines 93-102. -/
def relationNamesFilter (relationNames : List String) : String :=
  let relationNamesFilter := ""
  if relationNames.length > 0 then
    let quotedRels :=
      relationNames.foldl (fun quotedRels r => quotedRels ++ ["'" ++ r ++ "'::regclass::oid"]) []
    let relsStr := stringsJoin quotedRels ", "
    " AND (c.oid IN (" ++ relsStr ++
      ") OR c.oid IN (SELECT indexrelid FROM pg_index WHERE indrelid IN (" ++ relsStr ++ ")))"
  else relationNamesFilter

/-- The text `queryClass` of `ExportStatistics` (lines 105-109). -/
def queryClass (relationNames : List String) : String :=
  "\n\t\tSELECT row_to_json(t) FROM\n" ++
    "            (SELECT c.relname, c.relpages, c.reltuples, c.relallvisible, n.nspname\n" ++
    "                FROM pg_class c JOIN pg_namespace n on c.relnamespace = n.oid " ++
    schemasFilter ++ " " ++ relationNamesFilter relationNames ++ ") t\n\t"

/-- The text `relationNamesFilter` of `ExportExtendedStatistics` after lines 45-53. -/
def extRelationNamesFilter (relationNames : List String) : String :=
  let relationNamesFilter := ""
  if relationNames.length > 0 then
    let quotedRels :=
      relationNames.foldl (fun quotedRels r => quotedRels ++ ["'" ++ r ++ "'::regclass::oid"]) []
    let relsStr := stringsJoin quotedRels ", "
    " AND (c.oid IN (" ++ relsStr ++
      ") OR c.oid IN (SELECT indexrelid FROM pg_index WHERE indrelid IN (" ++ relsStr ++ ")))"
  else relationNamesFilter

/-- The text `queryExt`, the descriptor query of `ExportExtendedStatistics`
(lines 56-65). -/
def queryExt (relationNames : List String) : String :=
  "\n        SELECT row_to_json(t) FROM \n" ++
    "            (SELECT c.relname, s.stxname, n.nspname, s.stxowner, s.stxstattarget, " ++
    "string_agg(a.attname, ',') as stxkeys, s.stxkind, s.stxexprs \n" ++
    "             FROM \n" ++
    "                pg_class c \n" ++
    "                JOIN pg_statistic_ext s ON c.oid = s.stxrelid \n" ++
    "                JOIN pg_attribute a ON c.oid = a.attrelid AND a.attnum = ANY(s.stxkeys)\n" ++
    "                JOIN pg_namespace n ON c.relnamespace = n.oid " ++
    schemasFilter ++ " " ++ extRelationNamesFilter relationNames ++ "\n" ++
    "                GROUP BY c.relname, s.stxname, n.nspname, s.stxowner, s.stxstattarget, " ++
    "s.stxkind, s.stxexprs) t\n    "

/-- The text `queryExtData`, the payload query of `ExportExtendedStatistics`
(lines 87-92): a literal. -/
def queryExtData : String :=
  "\n        SELECT row_to_json(t) FROM \n" ++
    "            (SELECT s.stxname, d.stxdinherit, d.stxdndistinct::bytea, " ++
    "d.stxddependencies::bytea, d.stxdmcv::bytea, d.stxdexpr\n" ++
    "                FROM\n" ++
    "                    pg_statistic_ext s JOIN pg_statistic_ext_data d ON s.oid = d.stxoid) t\n    "

/-- The two query texts `ExportExtendedStatistics` sends for a scope list, in the
order it sends them: the descriptor query (line 67) and the payload query
(line 94). -/
def extendedStatisticsQueries (relationNames : List String) : List String :=
  [queryExt relationNames, queryExtData]

/-- The replay script `ExportExtendedStatistics` writes (lines 94-135), given what
the database answers to a query text (`payloadRowsFor`, the decoded rows): the rows
answered to the second query it sends are handed, all of them, to
`generateImportExtSQL`. -/
def extendedStatisticsScript (ybMode : Bool) (relationNames : List String)
    (payloadRowsFor : String → List PgStatisticExtData) : Except String String :=
  let queryExtData := (extendedStatisticsQueries relationNames).getD 1 ""
  generateImportExtSQL ybMode (payloadRowsFor queryExtData)

/-- The elements of a per-expression array that are field maps
(`map[string]interface{}`), in input order. -/
def fieldMaps : List GoValue → List (List (String × GoValue))
  | [] => []
  | GoValue.map statMap :: rest => statMap :: fieldMaps rest
  | _ :: rest => fieldMaps rest

/-- A payload whose per-expression array holds one record and one element that is
not a field map (a JSON string). -/
def mixedPayload : PgStatisticExtData where
  Stxname := "s1"
  Stxdinherit := false
  Stxdndistinct := GoValue.nil
  Stxddependencies := GoValue.nil
  Stxdmcv := GoValue.nil
  Stxdexpr := some [GoValue.map slotRecord, GoValue.str "junk"]

/-- A per-expression record that has the keys `stacoll2` to `stacoll5` and lacks
`stacoll1`. -/
def collTailRecord : List (String × GoValue) :=
  [("stacoll2", GoValue.float ten), ("stacoll3", GoValue.float ten),
   ("stacoll4", GoValue.float ten), ("stacoll5", GoValue.float ten)]

/-- The five collation field names. -/
def collKeys : List String :=
  ["stacoll1", "stacoll2", "stacoll3", "stacoll4", "stacoll5"]

/-! ## `Dump` and `ExportGFlags` (`dump.go`, lines 49-125; `export_misc.go`,
lines 95-142; `config.go`) -/

/-- Go `Config`. -/
structure Config where
  Host : String
  Port : Int
  Database : String
  User : String
  Password : String
  OutputDir : String
  QueryFile : String
  YBMode : Bool
  EnableBaseScansCostModel : Bool
  Verbose : Bool

/-- What the outside answers during one run of `Dump`. A Go `error` is `none` when
nil and the error text otherwise. The stage functions that `Dump` calls are taken by
what they return; `showServerVersionNum` is the answer to the query of line 91 of
`dump.go`; the last five fields are the calls of `ExportGFlags` that can fail:
`client.Get`, `io.ReadAll`, `json.Unmarshal`, `json.MarshalIndent`, `os.WriteFile`. -/
structure World where
  getRelationNamesInQuery : String → Except String (List String)
  exportQueryPlan : String → Option String
  exportDDL : List String → Option String
  exportStatistics : List String → Option String
  showServerVersionNum : Except String String
  exportExtendedStatistics : List String → Option String
  exportVersion : Option String
  exportOverriddenGUCs : Option String
  httpGet : String → Option String
  readAll : Option String
  jsonUnmarshal : Option String
  jsonMarshalIndent : Option String
  writeGFlagsFile : Option String

/-- What a function of the run leaves behind: the error it returns and the texts it
printed to standard output, in order. -/
structure RunResult where
  err : Option String
  stdout : List String

/-- Value of a run of decimal digits. -/
def digitsValue (ds : List Char) : Nat :=
  ds.foldl (fun n c => 10 * n + (c.toNat - 48)) 0

/-- Go `fmt.Sscanf(s, "%d", &n)` on a variable `n` that holds 0: after leading
spaces an optional sign and decimal digits are read; when there is no digit the scan
fails and `n` stays 0. -/
def sscanfInt (s : String) : Int :=
  let cs := s.data.dropWhile (fun c => c = ' ')
  let signed : Bool × List Char :=
    match cs with
    | '-' :: rest => (true, rest)
    | '+' :: rest => (false, rest)
    | _ => (false, cs)
  let ds := signed.2.takeWhile Char.isDigit
  if ds.isEmpty then 0
  else if signed.1 then - (digitsValue ds : Int) else (digitsValue ds : Int)

/-- Go `ExportGFlags`; the content of the flags file is left out. -/
def ExportGFlags (cfg : Config) (w : World) : RunResult :=
  let url := "http://" ++ cfg.Host ++ ":7000/api/v1/varz"
  match w.httpGet url with
  | some err => ⟨none, ["Warning: failed to fetch gflags: " ++ err ++ "\n"]⟩
  | none =>
    match w.readAll with
    | some err => ⟨some ("failed to read gflags response: " ++ err), []⟩
    | none =>
      match w.jsonUnmarshal with
      | some err => ⟨some ("failed to parse gflags json: " ++ err), []⟩
      | none =>
        match w.jsonMarshalIndent with
        | some err => ⟨some ("failed to marshal gflags: " ++ err), []⟩
        | none =>
          match w.writeGFlagsFile with
          | some err => ⟨some ("failed to write gflags.json: " ++ err), []⟩
          | none => ⟨none, []⟩

/-- Lines 53-69 of `Dump`: the relation names, or the error returned. -/
def dumpQueryFile (cfg : Config) (w : World) : Except String (List String) :=
  if cfg.QueryFile ≠ "" then
    match w.getRelationNamesInQuery cfg.QueryFile with
    | .error err => .error ("failed to analyze query: " ++ err)
    | .ok relationNames =>
      match w.exportQueryPlan cfg.QueryFile with
      | some err => .error ("failed to export query plan: " ++ err)
      | none => .ok relationNames
  else .ok []

/-- Lines 114-124 of `Dump`, reached when no stage before returned an error: the
result of `Dump` from the output `out` printed so far. -/
def dumpGFlags (cfg : Config) (w : World) (out : List String) : RunResult :=
  if cfg.YBMode then
    let out := if cfg.Verbose then out ++ ["Exporting GFlags...\n"] else out
    let g := ExportGFlags cfg w
    let out := out ++ g.stdout
    match g.err with
    | some err => ⟨none, out ++ ["Warning: " ++ err ++ "\n"]⟩
    | none => ⟨none, out⟩
  else ⟨none, out⟩

/-- Go `Dumper.Dump`. -/
def Dump (cfg : Config) (w : World) : RunResult :=
  let out : List String :=
    if cfg.QueryFile ≠ "" ∧ cfg.Verbose = true then
      ["Analyzing query file to identify relations...\n"]
    else []
  match dumpQueryFile cfg w with
  | .error err => ⟨some err, out⟩
  | .ok relationNames =>
    let out := if cfg.Verbose then out ++ ["Exporting DDL...\n"] else out
    match w.exportDDL relationNames with
    | some err => ⟨some ("failed to export DDL: " ++ err), out⟩
    | none =>
      let out := if cfg.Verbose then out ++ ["Exporting Statistics...\n"] else out
      match w.exportStatistics relationNames with
      | some err => ⟨some ("failed to export statistics: " ++ err), out⟩
      | none =>
        let out := if cfg.Verbose then out ++ ["Exporting Extended Statistics...\n"] else out
        let versionStr :=
          match w.showServerVersionNum with
          | .ok text => text
          | .error _ => ""
        let pgVer := sscanfInt versionStr
        match (if pgVer ≥ 150000 then w.exportExtendedStatistics relationNames else none) with
        | some err => ⟨some ("failed to export extended statistics: " ++ err), out⟩
        | none =>
          let out := if cfg.Verbose then out ++ ["Exporting Version...\n"] else out
          match w.exportVersion with
          | some err => ⟨some ("failed to export version: " ++ err), out⟩
          | none =>
            let out := if cfg.Verbose then out ++ ["Exporting Overridden GUCs...\n"] else out
            match w.exportOverriddenGUCs with
            | some err => ⟨some ("failed to export GUCs: " ++ err), out⟩
            | none => dumpGFlags cfg w out

/-- A configuration without a query file, not verbose, with the given `YBMode`. -/
def plainConfig (ybMode : Bool) : Config where
  Host := "localhost"
  Port := 5433
  Database := "yugabyte"
  User := "yugabyte"
  Password := ""
  OutputDir := "out"
  QueryFile := ""
  YBMode := ybMode
  EnableBaseScansCostModel := false
  Verbose := false

/-- A run in which every call succeeds on a server of version 15.4. -/
def calmWorld : World where
  getRelationNamesInQuery := fun _ => .ok []
  exportQueryPlan := fun _ => none
  exportDDL := fun _ => none
  exportStatistics := fun _ => none
  showServerVersionNum := .ok "150004"
  exportExtendedStatistics := fun _ => none
  exportVersion := none
  exportOverriddenGUCs := none
  httpGet := fun _ => none
  readAll := none
  jsonUnmarshal := none
  jsonMarshalIndent := none
  writeGFlagsFile := none

/-- The run `calmWorld` in which the query of line 91 of `dump.go` fails (the
statement is cancelled) and the export of the extended statistics, were it reached,
would fail as well. -/
def versionQueryFails : World :=
  { calmWorld with
    showServerVersionNum := .error "ERROR: canceling statement due to user request"
    exportExtendedStatistics := fun _ => some "failed to query pg_statistic_ext: timeout" }

/-- The run `calmWorld` in which the export of the extended statistics fails. -/
def extendedStatisticsFail : World :=
  { calmWorld with
    exportExtendedStatistics := fun _ => some "failed to query pg_statistic_ext: timeout" }

/-- The run `calmWorld` in which the flags endpoint answers with a body that is not
JSON. -/
def badFlagsBody : World :=
  { calmWorld with jsonUnmarshal := some "invalid character '<'" }

/-- A run changed in the answer to the query of line 91 of `dump.go` alone. -/
def withVersionAnswer (w : World) (answer : Except String String) : World :=
  { w with showServerVersionNum := answer }

/-- The `pg_statistic` query `ExportStatistics` sends (line 222) for the scanned
`server_version_num` and the scope list: `queryStat` at the major version of
line 90 with the two filters of lines 92-102. -/
def exportStatisticsQueryStat (serverVersionNum : Int) (relationNames : List String) : String :=
  queryStat (pgMajorVersionOf serverVersionNum) schemasFilter (relationNamesFilter relationNames)

/-! ## Lemmas -/

theorem foldl_snoc_map {α β : Type} (f : α → β) (xs : List α) (init : List β) :
    xs.foldl (fun acc x => acc ++ [f x]) init = init ++ xs.map f := by
  induction xs generalizing init with
  | nil => simp
  | cons x xs ih => simp [ih]

theorem containsChars_iff (s sub : List Char) : containsChars s sub = true ↔ sub <:+: s := by
  induction s with
  | nil => simp [containsChars]
  | cons c s ih => simp [containsChars, ih, List.infix_cons_iff]

theorem stringsContains_iff (s sub : String) :
    stringsContains s sub = true ↔ sub.data <:+: s.data := by
  simp [stringsContains, containsChars_iff]

theorem mem_infix_stringsJoin (sep : String) (xs : List String) (x : String) (h : x ∈ xs) :
    x.data <:+: (stringsJoin xs sep).data := by
  induction xs with
  | nil => cases h
  | cons a rest ih =>
    unfold stringsJoin
    rcases List.mem_cons.1 h with rfl | h
    · split
      · exact List.infix_refl _
      · simp only [String.data_append, List.append_assoc]
        exact (List.prefix_append _ _).isInfix
    · have h2 : rest.isEmpty = false := by cases rest <;> simp_all
      simp only [h2, String.data_append]
      exact (ih h).trans (List.suffix_append _ _).isInfix

theorem fmtInt_digits :
    fmtInt 1 = "1" ∧ fmtInt 2 = "2" ∧ fmtInt 3 = "3" ∧ fmtInt 4 = "4" ∧ fmtInt 5 = "5" := by
  decide

theorem columnTypes_eq (v : Int) (stat : PgStatisticStats) :
    columnTypes v stat =
      [("stavalues5", stavaluesType stat), ("stavalues4", stavaluesType stat),
       ("stavalues3", stavaluesType stat), ("stavalues2", stavaluesType stat),
       ("stavalues1", stavaluesType stat)] ++
      (if 15 ≤ v then
        [("stacoll5", "oid"), ("stacoll4", "oid"), ("stacoll3", "oid"), ("stacoll2", "oid"),
         ("stacoll1", "oid")]
       else []) ++ baseColumnTypes := by
  obtain ⟨h1, h2, h3, h4, h5⟩ := fmtInt_digits
  by_cases h : 15 ≤ v <;> simp [columnTypes, h, mapSet, h1, h2, h3, h4, h5]

theorem headValues_raw (stat : PgStatisticStats) :
    headValues stat =
      [fmtBool stat.Stainherit ++ "::" ++ "boolean",
       fmtFloat stat.Stanullfrac ++ "::" ++ "real",
       fmtInt stat.Stawidth ++ "::" ++ "integer",
       fmtFloat stat.Stadistinct ++ "::" ++ "real",
       fmtInt stat.Stakind1 ++ "::" ++ "smallint",
       fmtInt stat.Stakind2 ++ "::" ++ "smallint",
       fmtInt stat.Stakind3 ++ "::" ++ "smallint",
       fmtInt stat.Stakind4 ++ "::" ++ "smallint",
       fmtInt stat.Stakind5 ++ "::" ++ "smallint",
       fmtV stat.Staop1 ++ "::" ++ "oid",
       fmtV stat.Staop2 ++ "::" ++ "oid",
       fmtV stat.Staop3 ++ "::" ++ "oid",
       fmtV stat.Staop4 ++ "::" ++ "oid",
       fmtV stat.Staop5 ++ "::" ++ "oid"] := by
  simp [headValues, String.append_assoc]

theorem collValues_raw (stat : PgStatisticStats) :
    collValues stat =
      [fmtV stat.Stacoll1 ++ "::" ++ "oid",
       fmtV stat.Stacoll2 ++ "::" ++ "oid",
       fmtV stat.Stacoll3 ++ "::" ++ "oid",
       fmtV stat.Stacoll4 ++ "::" ++ "oid",
       fmtV stat.Stacoll5 ++ "::" ++ "oid"] := by
  simp [collValues, String.append_assoc]

/-- The value list of a row, written out: the loop over `orderedCols` with its
`switch` and its type lookups yields these values in this order. -/
theorem columnValues_eq (v : Int) (stat : PgStatisticStats) :
    columnValues v stat =
      headValues stat ++ (if 15 ≤ v then collValues stat else []) ++ tailValues stat := by
  unfold columnValues
  rw [foldl_snoc_map, columnTypes_eq, headValues_raw, collValues_raw]
  by_cases h : 15 ≤ v
  · have h2 : v ≥ 15 := h
    simp only [orderedCols, if_pos h, if_pos h2]
    rfl
  · have h2 : ¬ v ≥ 15 := h
    simp only [orderedCols, if_neg h, if_neg h2]
    rfl

/-- Every value of the value list occurs in the text of the statement pair. -/
theorem value_in_query (v : Int) (stat : PgStatisticStats) (x : String)
    (h : x ∈ columnValues v stat) :
    ∃ q, getPgStatisticInsertQuery v stat = .ok q ∧ stringsContains q x = true := by
  refine ⟨_, rfl, ?_⟩
  rw [stringsContains_iff]
  simp only [String.data_append]
  exact ((mem_infix_stringsJoin ", " _ x h).trans (List.suffix_append _ _).isInfix).trans
    (List.prefix_append _ _).isInfix

theorem formatFloatArray_none (typ : String) : formatFloatArray none typ = "NULL::" ++ typ := rfl

theorem formatValuesArray_nil (typ : String) :
    formatValuesArray GoValue.nil typ = "NULL::" ++ typ := rfl

theorem stringsJoin_cons (sep a : String) (rest : List String) (h : rest ≠ []) :
    stringsJoin (a :: rest) sep = a ++ sep ++ stringsJoin rest sep := by
  cases rest with
  | nil => exact absurd rfl h
  | cons b more => simp [stringsJoin]

theorem columnValues_ne_nil (v : Int) (stat : PgStatisticStats) : columnValues v stat ≠ [] := by
  rw [columnValues_eq]
  simp [headValues]

theorem foldl_append_concatAll {α : Type} (f : α → String) (xs : List α) (init : String) :
    xs.foldl (fun sb x => sb ++ f x) init = init ++ concatAll (xs.map f) := by
  induction xs generalizing init with
  | nil => simp [concatAll]
  | cons x xs ih => simp [concatAll, ih, String.append_assoc]

theorem exists_statement_pairs (v : Int) (pgStat : List PgStatisticStats) :
    ∃ pairs : List String,
      List.Forall₂ (fun stat q => getPgStatisticInsertQuery v stat = .ok q) pgStat pairs := by
  induction pgStat with
  | nil => exact ⟨[], List.Forall₂.nil⟩
  | cons stat rest ih =>
    obtain ⟨pairs, hp⟩ := ih
    exact ⟨_ :: pairs, List.Forall₂.cons rfl hp⟩

theorem writeStatRows_eq (v : Int) (pgStat : List PgStatisticStats) (pairs : List String)
    (h : List.Forall₂ (fun stat q => getPgStatisticInsertQuery v stat = .ok q) pgStat pairs)
    (sb : String) :
    writeStatRows v pgStat sb = .ok (sb ++ concatAll (pairs.map (fun q => q ++ "\n"))) := by
  induction h generalizing sb with
  | nil => simp [writeStatRows, concatAll]
  | cons hq _ ih =>
    simp only [writeStatRows, hq, ih, List.map, concatAll, String.append_assoc]

/-! ## Claims -/

/-- C1 (the code departs from it): a nil operator slot is not written as
`NULL::oid`. The `%v` verb prints a nil `interface{}` as `<nil>`, so for every row
whose `Staop2` is nil, at every version, the value at the staop2 position is
`<nil>::oid`; the row of the repository's own test is such a row and its statement
contains `<nil>::oid` and no `NULL::oid`, while its nil stanumbers and stavalues
fields are written `NULL::real[]` and `NULL::pg_catalog.int4`. -/
theorem null_operator_slot_prints_nil_text :
    (∀ (v : Int) (stat : PgStatisticStats),
      (columnValues v { stat with Staop2 := GoValue.nil })[10]? = some "<nil>::oid") ∧
    (∃ q, getPgStatisticInsertQuery 14 testStat = .ok q ∧
      stringsContains q "<nil>::oid" = true ∧ stringsContains q "NULL::oid" = false ∧
      stringsContains q "NULL::real[]" = true ∧
      stringsContains q "NULL::pg_catalog.int4" = true) := by
  refine ⟨?_, _, rfl, ?_, ?_, ?_, ?_⟩
  · intro v stat
    rw [columnValues_eq]
    simp [headValues, fmtV]
  all_goals (set_option maxRecDepth 100000 in decide)

/-- C2: for a list value, `formatValuesArray` returns
`array_in('{...}', 'T'::regtype, -1)::anyarray`, the braces holding the escaped
`%v` text of each element between double quotes, in input order, joined by a comma
and a space; the list `[10, 20]` with type `pg_catalog.int4` gives
`array_in('{"10", "20"}', 'pg_catalog.int4'::regtype, -1)::anyarray` also when the
numbers are decoded JSON numbers; and for every row whose first values array is `[10, 20]` and whose
type is `pg_catalog.int4`, at every version, the statement contains
`array_in('{"10", "20"}', 'pg_catalog.int4'::regtype, -1)::anyarray`. -/
theorem formatValuesArray_list_shape :
    (∀ (listVal : List GoValue) (typ : String),
      formatValuesArray (GoValue.list listVal) typ =
        "array_in('\x7b" ++
          stringsJoin (listVal.map (fun e => "\"" ++ escapeElement (fmtV e) ++ "\"")) ", " ++
          "\x7d', '" ++ typ ++ "'::regtype, -1)::anyarray") ∧
    formatValuesArray (GoValue.list [GoValue.float ten, GoValue.float twenty]) "pg_catalog.int4" =
      "array_in('\x7b\"10\", \"20\"\x7d', 'pg_catalog.int4'::regtype, -1)::anyarray" ∧
    (∀ (v : Int) (stat : PgStatisticStats),
      ∃ q, getPgStatisticInsertQuery v (withIntValues stat) = .ok q ∧
        stringsContains q
          "array_in('\x7b\"10\", \"20\"\x7d', 'pg_catalog.int4'::regtype, -1)::anyarray" = true) := by
  refine ⟨?_, by decide, ?_⟩
  · intro listVal typ
    simp only [formatValuesArray, foldl_snoc_map, List.nil_append]
  · intro v stat
    apply value_in_query
    rw [columnValues_eq]
    simp only [List.mem_append, tailValues]
    refine Or.inr ?_
    have h : formatValuesArray (withIntValues stat).Stavalues1
        (stavaluesType (withIntValues stat)) =
        "array_in('\x7b\"10\", \"20\"\x7d', 'pg_catalog.int4'::regtype, -1)::anyarray" := rfl
    rw [h]
    simp

/-- C3: for a non-nil numbers slice, `formatFloatArray` returns the `%v` texts of the
numbers in input order, joined by commas, between `'{` and `}'`, cast to the type
given; `[0.5, 0.5]` with type `real[]` gives `'{0.5,0.5}'::real[]`. -/
theorem formatFloatArray_some_shape :
    (∀ (nums : List GoFloat) (typ : String),
      formatFloatArray (some nums) typ =
        "'\x7b" ++ stringsJoin (nums.map fmtFloat) "," ++ "\x7d'::" ++ typ) ∧
    formatFloatArray (some [half, half]) "real[]" = "'\x7b0.5,0.5\x7d'::real[]" := by
  refine ⟨?_, by decide⟩
  intro nums typ
  simp only [formatFloatArray, foldl_snoc_map, List.nil_append]

/-- C4 (the code departs from it): at version 14, on the row of the repository's
test, the statement holds the numbers as `'{0.5,0.5}'::real[]`; the text
`'{0.500000,0.500000}'::real[]` that the test asserts does not occur in it. -/
theorem stanumbers_not_six_digit_fixed_point :
    ∃ q, getPgStatisticInsertQuery 14 testStat = .ok q ∧
      stringsContains q "'\x7b0.5,0.5\x7d'::real[]" = true ∧
      stringsContains q "'\x7b0.500000,0.500000\x7d'::real[]" = false := by
  refine ⟨_, rfl, ?_, ?_⟩
  all_goals (set_option maxRecDepth 100000 in decide)

/-- C5 (the code departs from it): the first replacement turns two backslashes into
three and leaves a lone backslash alone, so an element whose text is one backslash
is written as one backslash between double quotes, not two. -/
theorem lone_backslash_not_doubled :
    escapeElement "\\" = "\\" ∧
    escapeElement "\\\\" = "\\\\\\" ∧
    formatValuesArray (GoValue.list [GoValue.str "\\"]) "pg_catalog.text" =
      "array_in('\x7b\"\\\"\x7d', 'pg_catalog.text'::regtype, -1)::anyarray" ∧
    formatValuesArray (GoValue.list [GoValue.str "\\"]) "pg_catalog.text" ≠
      "array_in('\x7b\"\\\\\"\x7d', 'pg_catalog.text'::regtype, -1)::anyarray" := by
  decide

/-- C6: at every version the type looked up for each of stavalues1..5 is the
column's runtime type `Typnspname.Typname`, or `pg_catalog.Typname` when
`Typnspname` is empty, and the last five values of the row are the five stavalues
fields, each encoded with that one type. The statement `getPgStatisticInsertQuery`
returns ends with these five values: its INSERT lists the key, the subquery, the
scalar, kind and operator values, the collation values from version 15 on, the five
numbers arrays, and then `formatValuesArray` of `Stavalues1..5` with that type; each
of the five texts occurs in the statement returned. -/
theorem stavalues_type_is_column_type (v : Int) (stat : PgStatisticStats) :
    List.map (mapGet (columnTypes v stat))
        ["stavalues1", "stavalues2", "stavalues3", "stavalues4", "stavalues5"] =
      List.replicate 5
        (if stat.Typnspname = "" then "pg_catalog." ++ stat.Typname
         else stat.Typnspname ++ "." ++ stat.Typname) ∧
    (columnValues v stat).drop ((columnValues v stat).length - 5) =
      List.map
        (fun val => formatValuesArray val
          (if stat.Typnspname = "" then "pg_catalog." ++ stat.Typname
           else stat.Typnspname ++ "." ++ stat.Typname))
        [stat.Stavalues1, stat.Stavalues2, stat.Stavalues3, stat.Stavalues4, stat.Stavalues5] ∧
    getPgStatisticInsertQuery v stat =
      .ok ("DELETE FROM pg_statistic WHERE starelid = " ++ starelidOf stat ++
        " AND staattnum = " ++ staattnumSubqueryOf stat ++
        ";\nINSERT INTO pg_statistic VALUES (" ++
        stringsJoin
          (starelidOf stat :: staattnumSubqueryOf stat ::
            (headValues stat ++ (if 15 ≤ v then collValues stat else []) ++
              [formatFloatArray stat.Stanumbers1 "real[]",
               formatFloatArray stat.Stanumbers2 "real[]",
               formatFloatArray stat.Stanumbers3 "real[]",
               formatFloatArray stat.Stanumbers4 "real[]",
               formatFloatArray stat.Stanumbers5 "real[]"] ++
              List.map
                (fun val => formatValuesArray val
                  (if stat.Typnspname = "" then "pg_catalog." ++ stat.Typname
                   else stat.Typnspname ++ "." ++ stat.Typname))
                [stat.Stavalues1, stat.Stavalues2, stat.Stavalues3, stat.Stavalues4,
                 stat.Stavalues5]))
          ", " ++
        ");") ∧
    (∃ q, getPgStatisticInsertQuery v stat = .ok q ∧
      List.map
        (fun val => stringsContains q
          (formatValuesArray val
            (if stat.Typnspname = "" then "pg_catalog." ++ stat.Typname
             else stat.Typnspname ++ "." ++ stat.Typname)))
        [stat.Stavalues1, stat.Stavalues2, stat.Stavalues3, stat.Stavalues4, stat.Stavalues5] =
      List.replicate 5 true) := by
  have htail : tailValues stat =
      [formatFloatArray stat.Stanumbers1 "real[]",
       formatFloatArray stat.Stanumbers2 "real[]",
       formatFloatArray stat.Stanumbers3 "real[]",
       formatFloatArray stat.Stanumbers4 "real[]",
       formatFloatArray stat.Stanumbers5 "real[]"] ++
      List.map
        (fun val => formatValuesArray val
          (if stat.Typnspname = "" then "pg_catalog." ++ stat.Typname
           else stat.Typnspname ++ "." ++ stat.Typname))
        [stat.Stavalues1, stat.Stavalues2, stat.Stavalues3, stat.Stavalues4,
         stat.Stavalues5] := rfl
  refine ⟨?_, ?_, ?_, ?_⟩
  · rw [columnTypes_eq]
    simp [mapGet, List.lookup, stavaluesType]
  · rw [columnValues_eq]
    by_cases h : 15 ≤ v <;> simp [h, headValues, collValues, tailValues, stavaluesType]
  · rw [List.append_assoc (headValues stat ++ (if 15 ≤ v then collValues stat else [])),
      ← htail, ← columnValues_eq,
      stringsJoin_cons ", " (starelidOf stat) _ (List.cons_ne_nil _ _),
      stringsJoin_cons ", " (staattnumSubqueryOf stat) _ (columnValues_ne_nil v stat)]
    simp only [getPgStatisticInsertQuery, String.append_assoc]
  · refine ⟨_, rfl, ?_⟩
    have hmem : ∀ x, x ∈ tailValues stat →
        stringsContains
          ("DELETE FROM pg_statistic WHERE starelid = " ++ starelidOf stat ++
            " AND staattnum = " ++ staattnumSubqueryOf stat ++
            ";\nINSERT INTO pg_statistic VALUES (" ++ starelidOf stat ++ ", " ++
            staattnumSubqueryOf stat ++ ", " ++ stringsJoin (columnValues v stat) ", " ++ ");")
          x = true := by
      intro x hx
      have hcol : x ∈ columnValues v stat := by
        rw [columnValues_eq]
        exact List.mem_append_right _ hx
      rw [stringsContains_iff]
      simp only [String.data_append]
      exact ((mem_infix_stringsJoin ", " _ x hcol).trans (List.suffix_append _ _).isInfix).trans
        (List.prefix_append _ _).isInfix
    have h1 := hmem (formatValuesArray stat.Stavalues1 (stavaluesType stat))
      (by simp [tailValues])
    have h2 := hmem (formatValuesArray stat.Stavalues2 (stavaluesType stat))
      (by simp [tailValues])
    have h3 := hmem (formatValuesArray stat.Stavalues3 (stavaluesType stat))
      (by simp [tailValues])
    have h4 := hmem (formatValuesArray stat.Stavalues4 (stavaluesType stat))
      (by simp [tailValues])
    have h5 := hmem (formatValuesArray stat.Stavalues5 (stavaluesType stat))
      (by simp [tailValues])
    unfold stavaluesType at h1 h2 h3 h4 h5
    simp only [List.map, List.replicate, h1, h2, h3, h4, h5]

set_option maxRecDepth 100000 in
/-- C7: with `major = v / 10000`, the collation items `s.stacoll1..5` are in the
select list of the `pg_statistic` query exactly when `major ≥ 15` (all five, else
none), the fields `stacoll1..5` are in the value order of
`getPgStatisticInsertQuery` exactly when `major ≥ 15` (all five, else none), and
the row has 29 column values then and 24 otherwise; `v = 149999` gives major 14
(none), `v = 150000` gives major 15 (all). The query text `ExportStatistics` sends
is, for every scope list, the text with the items `s.stacoll1..5` between the
numbers and the values when `major ≥ 15` and the text without them otherwise; the
statement `getPgStatisticInsertQuery` returns at that major version lists the five
collation values after the operators when `major ≥ 15` and goes from the operators
straight to the numbers otherwise. For an empty scope the query sent at 149999 does
not contain `stacoll` and the one sent at 150000 contains `s.stacoll1`; on the row of
the test the statement at 149999 has the numbers right after the five operators and
the one at 150000 has not. -/
theorem collation_fields_iff_major_ge_15 :
    (∀ v : Int,
      (statSelectList (pgMajorVersionOf v)).filter
          (fun c => decide (c ∈ ["s.stacoll1", "s.stacoll2", "s.stacoll3", "s.stacoll4",
            "s.stacoll5"])) =
        (if 15 ≤ pgMajorVersionOf v then
          ["s.stacoll1", "s.stacoll2", "s.stacoll3", "s.stacoll4", "s.stacoll5"]
         else []) ∧
      (orderedCols (pgMajorVersionOf v)).filter
          (fun c => decide (c ∈ ["stacoll1", "stacoll2", "stacoll3", "stacoll4", "stacoll5"])) =
        (if 15 ≤ pgMajorVersionOf v then
          ["stacoll1", "stacoll2", "stacoll3", "stacoll4", "stacoll5"]
         else []) ∧
      ∀ stat : PgStatisticStats,
        (columnValues (pgMajorVersionOf v) stat).length =
          if 15 ≤ pgMajorVersionOf v then 29 else 24) ∧
    pgMajorVersionOf 149999 = 14 ∧ pgMajorVersionOf 150000 = 15 ∧
    "s.stacoll1" ∉ statSelectList (pgMajorVersionOf 149999) ∧
    "stacoll1" ∉ orderedCols (pgMajorVersionOf 149999) ∧
    "s.stacoll1" ∈ statSelectList (pgMajorVersionOf 150000) ∧
    "stacoll1" ∈ orderedCols (pgMajorVersionOf 150000) ∧
    (∀ (v : Int) (relationNames : List String),
      exportStatisticsQueryStat v relationNames =
        if 15 ≤ pgMajorVersionOf v then
          "\n            SELECT row_to_json(t) FROM\n                (SELECT\n                    " ++
          stringsJoin
            ["n.nspname nspname", "c.relname relname", "a.attname attname",
             "(select nspname from pg_namespace where oid = t.typnamespace) typnspname",
             "t.typname typname", "s.stainherit", "s.stanullfrac", "s.stawidth", "s.stadistinct",
             "s.stakind1", "s.stakind2", "s.stakind3", "s.stakind4", "s.stakind5", "s.staop1",
             "s.staop2", "s.staop3", "s.staop4", "s.staop5", "s.stanumbers1", "s.stanumbers2",
             "s.stanumbers3", "s.stanumbers4", "s.stanumbers5", "s.stacoll1", "s.stacoll2",
             "s.stacoll3", "s.stacoll4", "s.stacoll5", "s.stavalues1", "s.stavalues2", "s.stavalues3",
             "s.stavalues4", "s.stavalues5"]
            ",\n                    " ++
          "\n                    FROM pg_class c\n" ++
          "                        JOIN pg_namespace n on c.relnamespace = n.oid " ++
          schemasFilter ++ " " ++ relationNamesFilter relationNames ++ "\n" ++
          "                        JOIN pg_statistic s ON s.starelid = c.oid\n" ++
          "                        JOIN pg_attribute a ON c.oid = a.attrelid AND s.staattnum = a.attnum\n" ++
          "                        JOIN pg_type t ON a.atttypid = t.oid) t\n            "
        else
          "\n            SELECT row_to_json(t) FROM\n                (SELECT\n                    " ++
          stringsJoin
            ["n.nspname nspname", "c.relname relname", "a.attname attname",
             "(select nspname from pg_namespace where oid = t.typnamespace) typnspname",
             "t.typname typname", "s.stainherit", "s.stanullfrac", "s.stawidth", "s.stadistinct",
             "s.stakind1", "s.stakind2", "s.stakind3", "s.stakind4", "s.stakind5", "s.staop1",
             "s.staop2", "s.staop3", "s.staop4", "s.staop5", "s.stanumbers1", "s.stanumbers2",
             "s.stanumbers3", "s.stanumbers4", "s.stanumbers5", "s.stavalues1", "s.stavalues2",
             "s.stavalues3", "s.stavalues4", "s.stavalues5"]
            ",\n                    " ++
          "\n                    FROM pg_class c\n" ++
          "                        JOIN pg_namespace n on c.relnamespace = n.oid " ++
          schemasFilter ++ " " ++ relationNamesFilter relationNames ++ "\n" ++
          "                        JOIN pg_statistic s ON s.starelid = c.oid\n" ++
          "                        JOIN pg_attribute a ON c.oid = a.attrelid AND s.staattnum = a.attnum\n" ++
          "                        JOIN pg_type t ON a.atttypid = t.oid) t\n            ") ∧
    (∀ (v : Int) (stat : PgStatisticStats),
      getPgStatisticInsertQuery (pgMajorVersionOf v) stat =
        .ok ("DELETE FROM pg_statistic WHERE starelid = " ++ starelidOf stat ++
          " AND staattnum = " ++ staattnumSubqueryOf stat ++
          ";\nINSERT INTO pg_statistic VALUES (" ++
          stringsJoin
            (starelidOf stat :: staattnumSubqueryOf stat ::
              (headValues stat ++
                (if 15 ≤ pgMajorVersionOf v then collValues stat else []) ++
                tailValues stat))
            ", " ++
          ");")) ∧
    stringsContains (exportStatisticsQueryStat 149999 []) "stacoll" = false ∧
    stringsContains (exportStatisticsQueryStat 150000 []) "s.stacoll1" = true ∧
    (∃ q, getPgStatisticInsertQuery (pgMajorVersionOf 149999) testStat = .ok q ∧
      stringsContains q
        "96::oid, <nil>::oid, <nil>::oid, <nil>::oid, <nil>::oid, '\x7b0.5,0.5\x7d'::real[]" =
        true) ∧
    (∃ q, getPgStatisticInsertQuery (pgMajorVersionOf 150000) testStat = .ok q ∧
      stringsContains q
        "96::oid, <nil>::oid, <nil>::oid, <nil>::oid, <nil>::oid, '\x7b0.5,0.5\x7d'::real[]" =
        false ∧
      stringsContains q
        ("96::oid, <nil>::oid, <nil>::oid, <nil>::oid, <nil>::oid, " ++
          "<nil>::oid, <nil>::oid, <nil>::oid, <nil>::oid, <nil>::oid, " ++
          "'\x7b0.5,0.5\x7d'::real[]") = true) := by
  refine ⟨?_, by decide, by decide, by decide, by decide, by decide, by decide,
    ?_, ?_, by decide, by decide,
    ⟨_, rfl, by decide⟩, ⟨_, rfl, by decide, by decide⟩⟩
  swap
  · intro v relationNames
    by_cases h : 15 ≤ pgMajorVersionOf v
    · have h2 : ¬ pgMajorVersionOf v < 15 := not_lt.mpr h
      rw [if_pos h]
      simp only [exportStatisticsQueryStat, queryStat, statSelectList, if_neg h2]
      rfl
    · have h2 : pgMajorVersionOf v < 15 := not_le.mp h
      rw [if_neg h]
      simp only [exportStatisticsQueryStat, queryStat, statSelectList, if_pos h2]
      rfl
  swap
  · intro v stat
    rw [← columnValues_eq,
      stringsJoin_cons ", " (starelidOf stat) _ (List.cons_ne_nil _ _),
      stringsJoin_cons ", " (staattnumSubqueryOf stat) _ (columnValues_ne_nil _ stat)]
    simp only [getPgStatisticInsertQuery, String.append_assoc]
  intro v
  generalize pgMajorVersionOf v = m
  refine ⟨?_, ?_, ?_⟩
  · by_cases h : 15 ≤ m
    · have h2 : ¬ m < 15 := not_lt.mpr h
      simp only [statSelectList, if_pos h, if_neg h2]
      decide
    · have h2 : m < 15 := not_le.mp h
      simp only [statSelectList, if_neg h, if_pos h2]
      decide
  · by_cases h : 15 ≤ m
    · have h2 : m ≥ 15 := h
      simp only [orderedCols, if_pos h, if_pos h2]
      decide
    · have h2 : ¬ m ≥ 15 := h
      simp only [orderedCols, if_neg h, if_neg h2]
      decide
  · intro stat
    rw [columnValues_eq]
    by_cases h : 15 ≤ m <;> simp [h, headValues, collValues, tailValues]

/-- C8: the INSERT of a row lists, joined by `, `: starelid, the staattnum subquery,
then stainherit, stanullfrac, stawidth, stadistinct, stakind1..5, staop1..5, then
stacoll1..5 when the version is at least 15 and nothing otherwise, then
stanumbers1..5 and stavalues1..5, each value made from the row's field of that
name; these are 31 values from version 15 on and 26 below. -/
theorem insert_values_positional (v : Int) (stat : PgStatisticStats) :
    getPgStatisticInsertQuery v stat =
      .ok ("DELETE FROM pg_statistic WHERE starelid = " ++ starelidOf stat ++
        " AND staattnum = " ++ staattnumSubqueryOf stat ++
        ";\nINSERT INTO pg_statistic VALUES (" ++
        stringsJoin
          (starelidOf stat :: staattnumSubqueryOf stat ::
            (headValues stat ++ (if 15 ≤ v then collValues stat else []) ++ tailValues stat))
          ", " ++
        ");") ∧
    (starelidOf stat :: staattnumSubqueryOf stat ::
        (headValues stat ++ (if 15 ≤ v then collValues stat else []) ++ tailValues stat)).length =
      (if 15 ≤ v then 31 else 26) := by
  constructor
  · rw [← columnValues_eq,
      stringsJoin_cons ", " (starelidOf stat) _ (List.cons_ne_nil _ _),
      stringsJoin_cons ", " (staattnumSubqueryOf stat) _ (columnValues_ne_nil v stat)]
    simp only [getPgStatisticInsertQuery, String.append_assoc]
  · by_cases h : 15 ≤ v <;> simp [h, headValues, collValues, tailValues]

/-- C9: for every row and version `getPgStatisticInsertQuery` succeeds, and its text
is a `DELETE FROM pg_statistic` statement, a newline, and an
`INSERT INTO pg_statistic VALUES` statement; both use the same
`'<schema>.<relation>'::regclass` key and the same attribute-number subquery on the
row's attribute name. -/
theorem delete_then_insert_same_key (v : Int) (stat : PgStatisticStats) :
    getPgStatisticInsertQuery v stat =
      .ok (
        ("DELETE FROM pg_statistic WHERE starelid = " ++
            ("'" ++ stat.Nspname ++ "." ++ stat.Relname ++ "'::regclass") ++
          " AND staattnum = " ++
            ("(SELECT a.attnum FROM pg_attribute a WHERE a.attrelid = " ++
              ("'" ++ stat.Nspname ++ "." ++ stat.Relname ++ "'::regclass") ++
              " and a.attname = '" ++ stat.Attname ++ "')") ++
          ";") ++
        "\n" ++
        ("INSERT INTO pg_statistic VALUES (" ++
            ("'" ++ stat.Nspname ++ "." ++ stat.Relname ++ "'::regclass") ++ ", " ++
            ("(SELECT a.attnum FROM pg_attribute a WHERE a.attrelid = " ++
              ("'" ++ stat.Nspname ++ "." ++ stat.Relname ++ "'::regclass") ++
              " and a.attname = '" ++ stat.Attname ++ "')") ++ ", " ++
            stringsJoin (columnValues v stat) ", " ++
          ");")) := by
  have e : ";\nINSERT INTO pg_statistic VALUES (" =
      ";" ++ "\n" ++ "INSERT INTO pg_statistic VALUES (" := by decide
  simp only [getPgStatisticInsertQuery, starelidOf, staattnumSubqueryOf]
  rw [e]
  simp only [String.append_assoc]

/-- C10: `generateImportSQL` succeeds on every input, and its script is, in this
order: the `SET yb_non_ddl_txn_for_sys_tables_allowed = ON` preamble when `ybMode`
is true and nothing otherwise; the `UPDATE pg_class` line of each relation in input
order; the statement pair of each column statistic row in input order, each
followed by a newline; and, when `ybMode` is true and only then, the
`pg_yb_catalog_version` increment followed by `SET ... = OFF`. With `ybMode` false
the script is the relation lines and the pairs alone. -/
theorem generateImportSQL_layout (ybMode : Bool) (v : Int) (pgClass : List PgClassStats)
    (pgStat : List PgStatisticStats) :
    ∃ pairs : List String,
      List.Forall₂ (fun stat q => getPgStatisticInsertQuery v stat = .ok q) pgStat pairs ∧
      generateImportSQL ybMode v pgClass pgStat =
        .ok ((if ybMode then "SET yb_non_ddl_txn_for_sys_tables_allowed = ON;\n\n" else "") ++
          concatAll (pgClass.map updateClassLine) ++
          concatAll (pairs.map (fun q => q ++ "\n")) ++
          (if ybMode then
            "\nupdate pg_yb_catalog_version set current_version=current_version+1 where db_oid=1;\n"
              ++ "SET yb_non_ddl_txn_for_sys_tables_allowed = OFF;\n"
           else "")) ∧
      generateImportSQL false v pgClass pgStat =
        .ok (concatAll (pgClass.map updateClassLine) ++
          concatAll (pairs.map (fun q => q ++ "\n"))) := by
  obtain ⟨pairs, hp⟩ := exists_statement_pairs v pgStat
  have hfalse : generateImportSQL false v pgClass pgStat =
      .ok (concatAll (pgClass.map updateClassLine) ++
        concatAll (pairs.map (fun q => q ++ "\n"))) := by
    simp [generateImportSQL, foldl_append_concatAll, writeStatRows_eq v pgStat pairs hp]
  refine ⟨pairs, hp, ?_, hfalse⟩
  cases ybMode
  · simpa using hfalse
  · simp [generateImportSQL, foldl_append_concatAll, writeStatRows_eq v pgStat pairs hp,
      String.append_assoc]

/-! ## Lemmas for the script, the document and the plan walk -/

theorem generateImportSQL_eq (ybMode : Bool) (v : Int) (pgClass : List PgClassStats)
    (pgStat : List PgStatisticStats) (pairs : List String)
    (h : List.Forall₂ (fun stat q => getPgStatisticInsertQuery v stat = .ok q) pgStat pairs) :
    generateImportSQL ybMode v pgClass pgStat =
      .ok ((if ybMode then "SET yb_non_ddl_txn_for_sys_tables_allowed = ON;\n\n" else "") ++
        concatAll (pgClass.map updateClassLine) ++
        concatAll (pairs.map (fun q => q ++ "\n")) ++
        (if ybMode then
          "\nupdate pg_yb_catalog_version set current_version=current_version+1 where db_oid=1;\n"
            ++ "SET yb_non_ddl_txn_for_sys_tables_allowed = OFF;\n"
         else "")) := by
  cases ybMode <;>
    simp [generateImportSQL, foldl_append_concatAll, writeStatRows_eq v pgStat pairs h,
      String.append_assoc]

theorem writeRawRows_eq (n : Nat) (rows : List String) (i : Nat) (sb : String)
    (h : i + rows.length = n) :
    writeRawRows n i rows sb = sb ++ rowLines rows := by
  induction rows generalizing i sb with
  | nil => simp [writeRawRows, rowLines]
  | cons row rest ih =>
    have hlen : i + 1 + rest.length = n := by simp only [List.length_cons] at h; omega
    by_cases hrest : rest = []
    · subst hrest
      have hi : ¬ ((i : Int) < (n : Int) - 1) := by simp only [List.length_nil] at hlen; omega
      simp [writeRawRows, rowLines, hi, String.append_assoc]
    · have hpos : 0 < rest.length := List.length_pos.mpr hrest
      have hi : (i : Int) < (n : Int) - 1 := by omega
      have he : rest.isEmpty = false := by cases rest <;> simp_all
      simp only [writeRawRows, rowLines, hi, he, if_true, ih (i + 1) _ hlen,
        String.append_assoc]
      simp

/-! ## Claims, continued -/

/-- C11: the script has, for each relation in input order, one line
`UPDATE pg_class SET reltuples = .., relpages = .., relallvisible = ..` with that
relation's three values, restricted to `relnamespace = '<schema>'::regnamespace`
and to a relname that is the relation's name or that name followed by `_pkey`;
the lines stand between the preamble and the statement pairs. -/
theorem one_update_line_per_relation (ybMode : Bool) (v : Int) (pgClass : List PgClassStats)
    (pgStat : List PgStatisticStats) :
    ∃ pairs : List String,
      List.Forall₂ (fun stat q => getPgStatisticInsertQuery v stat = .ok q) pgStat pairs ∧
      generateImportSQL ybMode v pgClass pgStat =
        .ok ((if ybMode then "SET yb_non_ddl_txn_for_sys_tables_allowed = ON;\n\n" else "") ++
          concatAll (pgClass.map (fun cls =>
            "UPDATE pg_class SET reltuples = " ++ fmtFloat cls.Reltuples ++ ", relpages = " ++
              fmtInt cls.Relpages ++ ", relallvisible = " ++ fmtInt cls.Relallvisible ++
              " WHERE relnamespace = '" ++ cls.Nspname ++ "'::regnamespace AND (relname = '" ++
              cls.Relname ++ "' OR relname = '" ++ cls.Relname ++ "_pkey');\n")) ++
          concatAll (pairs.map (fun q => q ++ "\n")) ++
          (if ybMode then
            "\nupdate pg_yb_catalog_version set current_version=current_version+1 where db_oid=1;\n"
              ++ "SET yb_non_ddl_txn_for_sys_tables_allowed = OFF;\n"
           else "")) := by
  obtain ⟨pairs, hp⟩ := exists_statement_pairs v pgStat
  exact ⟨pairs, hp, generateImportSQL_eq ybMode v pgClass pgStat pairs hp⟩

/-- C12 (the code departs from it): on the inputs of the repository's test (one
relation with `Reltuples = 1000`, `ybMode` true, version 14) the script holds
`UPDATE pg_class SET reltuples = 1000, relpages`; the text
`UPDATE pg_class SET reltuples = 1000.000000` that the test asserts does not occur
in it. -/
theorem reltuples_not_six_digit_fixed_point :
    ∃ q, generateImportSQL true 14 [testClass] [] = .ok q ∧
      stringsContains q "UPDATE pg_class SET reltuples = 1000, relpages = 10" = true ∧
      stringsContains q "UPDATE pg_class SET reltuples = 1000.000000" = false := by
  refine ⟨_, rfl, ?_, ?_⟩
  all_goals (set_option maxRecDepth 100000 in decide)

/-- C13: the document is an object with the keys `version`, `pg_class` and
`pg_statistic` in that order; each array holds its rows in input order, every row
unchanged on a line of its own after eight spaces, with a comma after every row but
the last; an empty list gives an array with no row line. -/
theorem formatStatisticsJSON_layout (version : String) (pgClass pgStatistic : List String) :
    formatStatisticsJSON version pgClass pgStatistic =
      "\x7b\n" ++
      "    \"version\": \"" ++ version ++ "\",\n" ++
      "    \"pg_class\": [\n" ++ rowLines pgClass ++ "    ],\n" ++
      "    \"pg_statistic\": [\n" ++ rowLines pgStatistic ++ "    ]\n" ++
      "\x7d" ∧
    rowLines [] = "" ∧
    (∀ row : String, rowLines [row] = "        " ++ row ++ "\n") ∧
    (∀ (row next : String) (rest : List String),
      rowLines (row :: next :: rest) = "        " ++ row ++ ",\n" ++ rowLines (next :: rest)) := by
  refine ⟨?_, rfl, ?_, ?_⟩
  · simp only [formatStatisticsJSON, writeRawRows_eq _ _ 0 _ (Nat.zero_add _),
      String.append_assoc]
    simp
  · intro row
    simp [rowLines]
  · intro row next rest
    simp [rowLines, String.append_assoc]

/-! ## Lemmas for the plan walk -/

mutual
theorem extractRelations_eq : ∀ (plan : Plan) (relations : List String),
    extractRelations plan relations = (planNames plan).foldl setTrue relations
  | .mk _ relationName schema _ plans, relations => by
    rw [extractRelations, planNames, extractRelationsEach_eq plans, List.foldl_append]
    by_cases h1 : relationName = "" <;> by_cases h2 : schema = "" <;> simp [h1, h2]
theorem extractRelationsEach_eq : ∀ (plans : List Plan) (relations : List String),
    extractRelationsEach plans relations = (planNamesEach plans).foldl setTrue relations
  | [], relations => by simp [extractRelationsEach, planNamesEach]
  | plan :: rest, relations => by
    rw [extractRelationsEach, planNamesEach, List.foldl_append, extractRelations_eq plan,
      extractRelationsEach_eq rest]
end

theorem mem_foldl_setTrue (names relations : List String) (name : String) :
    name ∈ names.foldl setTrue relations ↔ name ∈ relations ∨ name ∈ names := by
  induction names generalizing relations with
  | nil => simp
  | cons a rest ih =>
    rw [List.foldl_cons, ih]
    unfold setTrue
    by_cases h : a ∈ relations
    · simp only [h, if_true, List.mem_cons]
      constructor
      · rintro (h1 | h1)
        · exact Or.inl h1
        · exact Or.inr (Or.inr h1)
      · rintro (h1 | rfl | h1)
        · exact Or.inl h1
        · exact Or.inl h
        · exact Or.inr h1
    · simp only [h, if_false, List.mem_append, List.mem_singleton, List.mem_cons]
      tauto

theorem nodup_foldl_setTrue (names relations : List String) (h : relations.Nodup) :
    (names.foldl setTrue relations).Nodup := by
  induction names generalizing relations with
  | nil => simpa using h
  | cons a rest ih =>
    rw [List.foldl_cons]
    apply ih
    unfold setTrue
    by_cases ha : a ∈ relations
    · simpa [ha] using h
    · simp only [ha, if_false]
      exact List.Nodup.append h (List.nodup_singleton a) (by simpa using ha)

/-! ## Claims, continued -/

/-- C14: `extractRelations` is a total function (it returns on every tree); started
on the empty set it yields exactly the names of the tree's nodes that have a
relation name, `schema.name` or the bare name when the schema is empty, each name
once; the node type plays no part, and a node without a relation name gives no name
while its children are still walked. A tree over `public.orders` and
`public.customers` yields these two names, also when they are referred to
repeatedly. -/
theorem extractRelations_exact_set (plan : Plan) :
    (∀ name : String, name ∈ extractRelations plan [] ↔ name ∈ planNames plan) ∧
    (extractRelations plan []).Nodup ∧
    (∀ (nodeType rel schema al : String) (plans : List Plan),
      planNames (Plan.mk nodeType rel schema al plans) =
        (if rel = "" then [] else [if schema = "" then rel else schema ++ "." ++ rel]) ++
          (plans.map planNames).flatten) ∧
    extractRelations ordersCustomersPlan [] = ["public.orders", "public.customers"] ∧
    extractRelations repeatedPlan [] = ["public.orders", "public.customers", "orders"] := by
  refine ⟨?_, ?_, ?_, by decide, by decide⟩
  · intro name
    rw [extractRelations_eq, mem_foldl_setTrue]
    simp
  · rw [extractRelations_eq]
    exact nodup_foldl_setTrue _ _ List.nodup_nil
  · intro nodeType rel schema al plans
    rw [planNames]
    congr 1
    induction plans with
    | nil => simp [planNamesEach]
    | cons p rest ih => simp [planNamesEach, ih]

/-! ## Lemmas for the extended-statistics script -/

theorem generateImportExtSQL_eq (ybMode : Bool) (pgStatExtData : List PgStatisticExtData) :
    generateImportExtSQL ybMode pgStatExtData =
      .ok ((if ybMode then "SET yb_non_ddl_txn_for_sys_tables_allowed = ON;\n\n" else "") ++
        concatAll (pgStatExtData.map (fun data => extDeleteLine data ++ extInsertLine data)) ++
        (if ybMode then
          "\nupdate pg_yb_catalog_version set current_version=current_version+1 where db_oid=1;\n"
            ++ "SET yb_non_ddl_txn_for_sys_tables_allowed = OFF;\n"
         else "")) := by
  have hfold : ∀ init : String,
      pgStatExtData.foldl (fun sb data => sb ++ (extDeleteLine data ++ extInsertLine data)) init =
        init ++ concatAll
          (pgStatExtData.map (fun data => extDeleteLine data ++ extInsertLine data)) :=
    fun init =>
      foldl_append_concatAll (fun data => extDeleteLine data ++ extInsertLine data) _ init
  cases ybMode <;> simp [generateImportExtSQL, String.append_assoc, hfold]

theorem mem_infix_concatAll (xs : List String) (x : String) (h : x ∈ xs) :
    x.data <:+: (concatAll xs).data := by
  induction xs with
  | nil => cases h
  | cons a rest ih =>
    simp only [concatAll, String.data_append]
    rcases List.mem_cons.1 h with rfl | h
    · exact (List.prefix_append _ _).isInfix
    · exact (ih h).trans (List.suffix_append _ _).isInfix

theorem extRowValues_eq (statMap : List (String × GoValue)) :
    extRowValues statMap =
      (extKeys statMap).map (fun k =>
        match mapLookup statMap k with
        | none => "NULL"
        | some val => renderExtValue k val) := by
  have hfun : (fun (rowValues : List String) (k : String) =>
        match mapLookup statMap k with
        | none => rowValues ++ ["NULL"]
        | some val => rowValues ++ [renderExtValue k val]) =
      (fun rowValues k => rowValues ++ [match mapLookup statMap k with
        | none => "NULL"
        | some val => renderExtValue k val]) := by
    funext rowValues k
    cases mapLookup statMap k <;> rfl
  unfold extRowValues
  rw [hfun, foldl_snoc_map, List.nil_append]

/-! ## Claims, continued -/

/-- C15: for a payload without a per-expression array (a nil `Stxdexpr`) the text of
the last INSERT value is the literal `NULL`, the INSERT line ends in `, NULL);`,
that line is in the script whatever payloads stand before and after it, and the
value is not the empty array literal. -/
theorem missing_expression_array_is_null (data : PgStatisticExtData) :
    stxdexprText (withoutExpr data) = "NULL" ∧
    extInsertLine (withoutExpr data) =
      "INSERT INTO pg_statistic_ext_data VALUES (" ++
        stringsJoin
          ["(SELECT oid FROM pg_statistic_ext WHERE stxname='" ++ data.Stxname ++ "')",
           fmtBool data.Stxdinherit, blobText data.Stxdndistinct,
           blobText data.Stxddependencies, blobText data.Stxdmcv, "NULL"] ", " ++
        ");\n" ∧
    (∀ (ybMode : Bool) (before after : List PgStatisticExtData),
      ∃ q, generateImportExtSQL ybMode (before ++ withoutExpr data :: after) = .ok q ∧
        stringsContains q (extInsertLine (withoutExpr data)) = true) ∧
    stxdexprText (withoutExpr data) ≠ "ARRAY[]::pg_statistic[]" := by
  have hnull : stxdexprText (withoutExpr data) = "NULL" := rfl
  refine ⟨hnull, ?_, ?_, by rw [hnull]; decide⟩
  · have e : "'), " = "')" ++ ", " := by decide
    simp only [extInsertLine, hnull, stringsJoin, List.isEmpty_cons, List.isEmpty_nil,
      Bool.false_eq_true, if_false, if_true]
    rw [e]
    simp only [String.append_assoc]
    rfl
  · intro ybMode before after
    refine ⟨_, generateImportExtSQL_eq ybMode _, ?_⟩
    rw [stringsContains_iff]
    simp only [String.data_append]
    have hmem : extDeleteLine (withoutExpr data) ++ extInsertLine (withoutExpr data) ∈
        List.map (fun data => extDeleteLine data ++ extInsertLine data)
          (before ++ withoutExpr data :: after) :=
      List.mem_map.2 ⟨withoutExpr data, by simp, rfl⟩
    have h1 := mem_infix_concatAll _ _ hmem
    rw [String.data_append] at h1
    exact (((List.suffix_append _ _).isInfix.trans h1).trans
      (List.suffix_append _ _).isInfix).trans (List.prefix_append _ _).isInfix

/-- C16: the values of a per-expression record are, key by key of its field order,
`NULL` when the key is absent from the record and the encoded value otherwise, so
there is one value per key; `generateImportExtSQL` returns no error on any input; an
empty record gives 26 times `NULL`, and a record holding only `stainherit` gives
`NULL` in the other 25 positions. -/
theorem absent_field_is_null (statMap : List (String × GoValue)) :
    extRowValues statMap =
      (extKeys statMap).map (fun k =>
        match mapLookup statMap k with
        | none => "NULL"
        | some val => renderExtValue k val) ∧
    (extRowValues statMap).length = (extKeys statMap).length ∧
    (∀ (ybMode : Bool) (pgStatExtData : List PgStatisticExtData),
      ∃ q, generateImportExtSQL ybMode pgStatExtData = .ok q) ∧
    extRowValues [] = List.replicate 26 "NULL" ∧
    extRowValues [("stainherit", GoValue.bool true)] =
      ["NULL", "NULL", "'true'"] ++ List.replicate 23 "NULL" := by
  refine ⟨extRowValues_eq statMap, ?_, fun ybMode d => ⟨_, rfl⟩, by decide, by decide⟩
  rw [extRowValues_eq, List.length_map]

/-- C17: the field order of a per-expression record is `starelid`, `staattnum`
followed by the value order `orderedCols` of `getPgStatisticInsertQuery`: that of a
version of at least 15 (collation fields after staop1..5) when the record has the
key `stacoll1`, that of a version below 15 otherwise. The order is a function of
the presence of that key alone: listing the record's entries in another order gives
the same field order. -/
theorem ext_field_order_matches_column_order :
    (∀ (statMap : List (String × GoValue)) (v : Int),
      extKeys statMap =
        "starelid" :: "staattnum" ::
          orderedCols (if (mapLookup statMap "stacoll1").isSome then max v 15 else min v 14)) ∧
    (∀ statMap : List (String × GoValue),
      extKeys statMap =
        if (mapLookup statMap "stacoll1").isSome then
          ["starelid", "staattnum", "stainherit", "stanullfrac", "stawidth", "stadistinct",
           "stakind1", "stakind2", "stakind3", "stakind4", "stakind5",
           "staop1", "staop2", "staop3", "staop4", "staop5",
           "stacoll1", "stacoll2", "stacoll3", "stacoll4", "stacoll5",
           "stanumbers1", "stanumbers2", "stanumbers3", "stanumbers4", "stanumbers5",
           "stavalues1", "stavalues2", "stavalues3", "stavalues4", "stavalues5"]
        else
          ["starelid", "staattnum", "stainherit", "stanullfrac", "stawidth", "stadistinct",
           "stakind1", "stakind2", "stakind3", "stakind4", "stakind5",
           "staop1", "staop2", "staop3", "staop4", "staop5",
           "stanumbers1", "stanumbers2", "stanumbers3", "stanumbers4", "stanumbers5",
           "stavalues1", "stavalues2", "stavalues3", "stavalues4", "stavalues5"]) ∧
    (∀ statMap : List (String × GoValue), extKeys statMap.reverse = extKeys statMap) := by
  have hkeys : ∀ statMap : List (String × GoValue),
      extKeys statMap =
        "starelid" :: "staattnum" ::
          orderedCols (if (mapLookup statMap "stacoll1").isSome then 15 else 14) := by
    intro statMap
    unfold extKeys
    cases mapLookup statMap "stacoll1" <;> rfl
  have hsome : ∀ (l : List (String × GoValue)) (k : String),
      (l.lookup k).isSome = true ↔ k ∈ l.map Prod.fst := by
    intro l k
    induction l with
    | nil => simp
    | cons a rest ih =>
      obtain ⟨k2, x⟩ := a
      by_cases h : k = k2
      · subst h
        simp [List.lookup]
      · have h2 : (k == k2) = false := by simpa using h
        simp [List.lookup, h2, ih, h]
  refine ⟨?_, ?_, ?_⟩
  · intro statMap v
    rw [hkeys]
    cases mapLookup statMap "stacoll1" with
    | none =>
      have h : ¬ (min v 14 ≥ 15) := by omega
      simp [orderedCols, h]
    | some x =>
      have h : max v 15 ≥ 15 := le_max_right v 15
      simp [orderedCols, h]
  · intro statMap
    rw [hkeys]
    cases mapLookup statMap "stacoll1" <;> rfl
  · intro statMap
    rw [hkeys, hkeys]
    have h : (mapLookup statMap.reverse "stacoll1").isSome =
        (mapLookup statMap "stacoll1").isSome := by
      rw [Bool.eq_iff_iff]
      simp only [mapLookup, hsome, List.map_reverse, List.mem_reverse]
    rw [h]

/-- C19: the script of `generateImportExtSQL` is, in input order, for each payload
one `DELETE FROM pg_statistic_ext_data` keyed by the object's `stxname` and then one
`INSERT` whose values are the oid subquery by `stxname`, the inheritance flag, the
three blobs and the encoded per-expression array; a nil blob is `NULL`, a string
blob is the string between single quotes cast to `bytea`; the preamble stands
before this block and the closing statements after it when `ybMode` is true, and
nothing stands there otherwise. -/
theorem ext_script_layout (ybMode : Bool) (pgStatExtData : List PgStatisticExtData) :
    generateImportExtSQL ybMode pgStatExtData =
      .ok ((if ybMode then "SET yb_non_ddl_txn_for_sys_tables_allowed = ON;\n\n" else "") ++
        concatAll (pgStatExtData.map (fun data =>
          ("DELETE FROM pg_statistic_ext_data WHERE stxoid = " ++
            "(SELECT oid FROM pg_statistic_ext WHERE stxname='" ++ data.Stxname ++ "');\n") ++
          ("INSERT INTO pg_statistic_ext_data VALUES (" ++
            stringsJoin
              ["(SELECT oid FROM pg_statistic_ext WHERE stxname='" ++ data.Stxname ++ "')",
               fmtBool data.Stxdinherit, blobText data.Stxdndistinct,
               blobText data.Stxddependencies, blobText data.Stxdmcv, stxdexprText data]
              ", " ++
            ");\n"))) ++
        (if ybMode then
          "\nupdate pg_yb_catalog_version set current_version=current_version+1 where db_oid=1;\n"
            ++ "SET yb_non_ddl_txn_for_sys_tables_allowed = OFF;\n"
         else "")) ∧
    blobText GoValue.nil = "NULL" ∧
    (∀ s : String, blobText (GoValue.str s) = "'" ++ s ++ "'::bytea") ∧
    (∀ val : GoValue, blobText val = "NULL" ∨ blobText val = "'" ++ fmtS val ++ "'::bytea") := by
  refine ⟨?_, rfl, fun s => rfl, ?_⟩
  · rw [generateImportExtSQL_eq]
    have hline : (fun data : PgStatisticExtData => extDeleteLine data ++ extInsertLine data) =
        (fun data =>
          ("DELETE FROM pg_statistic_ext_data WHERE stxoid = " ++
            "(SELECT oid FROM pg_statistic_ext WHERE stxname='" ++ data.Stxname ++ "');\n") ++
          ("INSERT INTO pg_statistic_ext_data VALUES (" ++
            stringsJoin
              ["(SELECT oid FROM pg_statistic_ext WHERE stxname='" ++ data.Stxname ++ "')",
               fmtBool data.Stxdinherit, blobText data.Stxdndistinct,
               blobText data.Stxddependencies, blobText data.Stxdmcv, stxdexprText data]
              ", " ++
            ");\n")) := by
      funext data
      have e : "'), " = "')" ++ ", " := by decide
      simp only [extDeleteLine, extInsertLine, stringsJoin, List.isEmpty_cons, List.isEmpty_nil,
        Bool.false_eq_true, if_false, if_true]
      rw [e]
      simp only [String.append_assoc]
    rw [hline]
  · intro val
    cases val <;> first | exact Or.inl rfl | exact Or.inr rfl

/-! ## Lemmas for the per-expression encoders -/

theorem stringsHasPrefix_append (p suffix : String) :
    stringsHasPrefix (p ++ suffix) p = true := by
  simp [stringsHasPrefix]

theorem extArrayElements_maps (records : List (List (String × GoValue))) :
    extArrayElements (records.map GoValue.map) =
      records.map (fun statMap => "(" ++ stringsJoin (extRowValues statMap) ", " ++ ")") := by
  have h : ∀ init : List String,
      (records.map GoValue.map).foldl
        (fun arrayElements item =>
          match item with
          | .map statMap =>
            arrayElements ++ ["(" ++ stringsJoin (extRowValues statMap) ", " ++ ")"]
          | _ => arrayElements)
        init =
      init ++ records.map
        (fun statMap => "(" ++ stringsJoin (extRowValues statMap) ", " ++ ")") := by
    induction records with
    | nil => intro init; simp
    | cons r rest ih => intro init; simp [ih]
  unfold extArrayElements
  rw [h, List.nil_append]

/-! ## Claims, continued -/

/-- C18, as it fails: a per-expression numbers list is not written the way
`formatFloatArray` writes it. For `[0.5, 0.5]` the record holds
`ARRAY[0.5,0.5]::real[]` where `formatFloatArray` gives `'{0.5,0.5}'::real[]`; the
values `[10, 20]` are joined by a comma without the space that `formatValuesArray`
puts, and a lone backslash is doubled here while `formatValuesArray` leaves it. The
script of a payload with such a record contains `ARRAY[0.5,0.5]::real[]` and does
not contain `'{0.5,0.5}'::real[]`. -/
theorem ext_numbers_not_as_formatFloatArray :
    renderExtValue "stanumbers1" (GoValue.list [GoValue.float half, GoValue.float half]) ≠
      formatFloatArray (some [half, half]) "real[]" ∧
    renderExtValue "stanumbers1" (GoValue.list [GoValue.float half, GoValue.float half]) =
      "ARRAY[0.5,0.5]::real[]" ∧
    formatFloatArray (some [half, half]) "real[]" = "'\x7b0.5,0.5\x7d'::real[]" ∧
    renderExtValue "stavalues1" (GoValue.list [GoValue.float ten, GoValue.float twenty]) =
      "array_in('\x7b\"10\",\"20\"\x7d', 'pg_catalog.int4'::regtype, -1)::anyarray" ∧
    formatValuesArray (GoValue.list [GoValue.float ten, GoValue.float twenty]) "pg_catalog.int4" =
      "array_in('\x7b\"10\", \"20\"\x7d', 'pg_catalog.int4'::regtype, -1)::anyarray" ∧
    escapeExtElement "\\" = "\\\\" ∧ escapeElement "\\" = "\\" ∧
    (∃ q, generateImportExtSQL false [slotPayload] = .ok q ∧
      stringsContains q "ARRAY[0.5,0.5]::real[]" = true ∧
      stringsContains q "'\x7b0.5,0.5\x7d'::real[]" = false) := by
  refine ⟨by decide, by decide, by decide, by decide, by decide, by decide, by decide,
    _, rfl, ?_, ?_⟩
  all_goals (set_option maxRecDepth 100000 in decide)

/-- C18, amended: in a per-expression record a numbers list under a key that starts
with `stanumbers` is written `ARRAY[..]::real[]` with the `%v` texts of its elements
joined by commas; a values list under a key that starts with `stavalues` is written
`array_in('{..}', 'pg_catalog.int4'::regtype, -1)::anyarray` with each element's
`%v` text escaped (backslash doubled, then double quote escaped, then single quote
doubled), put between double quotes, and joined by commas; the records of a payload
are put in parentheses, joined by a comma and a space, and wrapped in
`ARRAY[..]::pg_statistic[]`. -/
theorem ext_record_encoders :
    (∀ (suffix : String) (nums : List GoValue),
      renderExtValue ("stanumbers" ++ suffix) (GoValue.list nums) =
        "ARRAY[" ++ stringsJoin (nums.map fmtV) "," ++ "]::real[]") ∧
    (∀ (suffix : String) (vals : List GoValue),
      renderExtValue ("stavalues" ++ suffix) (GoValue.list vals) =
        "array_in('\x7b" ++
          stringsJoin (vals.map (fun v => "\"" ++ escapeExtElement (fmtV v) ++ "\"")) "," ++
          "\x7d', 'pg_catalog.int4'::regtype, -1)::anyarray") ∧
    (∀ s : String,
      escapeExtElement s =
        stringsReplaceAll (stringsReplaceAll (stringsReplaceAll s "\\" "\\\\") "\"" "\\\"")
          "'" "''") ∧
    (∀ (data : PgStatisticExtData) (records : List (List (String × GoValue))),
      stxdexprText (withExprRecords data records) =
        "ARRAY[" ++
          stringsJoin
            (records.map (fun statMap => "(" ++ stringsJoin (extRowValues statMap) ", " ++ ")"))
            ", " ++
          "]::pg_statistic[]") := by
  refine ⟨?_, ?_, fun s => rfl, ?_⟩
  · intro suffix nums
    have h : stringsHasPrefix ("stanumbers" ++ suffix) "stanumbers" = true :=
      stringsHasPrefix_append "stanumbers" suffix
    simp only [renderExtValue, h, if_true, foldl_snoc_map, List.nil_append]
  · intro suffix vals
    have h1 : stringsHasPrefix ("stavalues" ++ suffix) "stanumbers" = false := rfl
    have h2 : stringsHasPrefix ("stavalues" ++ suffix) "stavalues" = true :=
      stringsHasPrefix_append "stavalues" suffix
    simp only [renderExtValue, h1, h2, if_true, Bool.false_eq_true, if_false, foldl_snoc_map,
      List.nil_append]
  · intro data records
    simp only [stxdexprText, withExprRecords, extArrayElements_maps]

/-! ## Lemmas on single quotes -/

theorem replaceScan_singleQuote (s : List Char) :
    replaceScan [singleQuote] [singleQuote, singleQuote] 0 s = doubleQuotes s := by
  induction s with
  | nil => rfl
  | cons c s ih =>
    by_cases h : c = singleQuote
    · subst h
      simp [replaceScan, doubleQuotes, ih]
    · have h2 : ¬ singleQuote = c := fun e => h e.symm
      simp [replaceScan, doubleQuotes, ih, h, h2]

theorem stringsReplaceAll_singleQuote (s : String) :
    (stringsReplaceAll s "'" "''").data = doubleQuotes s.data := by
  have h1 : "'".data = [singleQuote] := by decide
  have h2 : "''".data = [singleQuote, singleQuote] := by decide
  have h3 : ¬ ([singleQuote] = ([] : List Char)) := by simp
  unfold stringsReplaceAll
  rw [h1, h2, if_neg h3]
  exact replaceScan_singleQuote s.data

theorem quotesPaired_cons_other (c : Char) (l : List Char) (h : ¬ c = singleQuote) :
    quotesPaired (c :: l) = quotesPaired l := by
  rw [quotesPaired.eq_def]
  simp [h]

theorem quotesPaired_cons_pair (l : List Char) :
    quotesPaired (singleQuote :: singleQuote :: l) = quotesPaired l := by
  rw [quotesPaired.eq_def]
  simp

theorem quotesPaired_cons_alone (c : Char) (l : List Char) (h : ¬ c = singleQuote) :
    quotesPaired (singleQuote :: c :: l) = false := by
  rw [quotesPaired.eq_def]
  simp [h]

theorem quotesPaired_doubleQuotes (s : List Char) : quotesPaired (doubleQuotes s) = true := by
  induction s with
  | nil => rfl
  | cons c s ih =>
    by_cases h : c = singleQuote
    · simp only [doubleQuotes, h, if_true, quotesPaired_cons_pair, ih]
    · simp only [doubleQuotes, h, if_false, quotesPaired_cons_other _ _ h, ih]

theorem quotesPaired_append_left :
    ∀ (x y : List Char), quotesPaired x = true → quotesPaired (x ++ y) = quotesPaired y
  | [], _, _ => rfl
  | [c], y, h => by
    by_cases hc : c = singleQuote
    · subst hc
      exact absurd h (by decide)
    · exact quotesPaired_cons_other c y hc
  | c :: c2 :: rest, y, h => by
    by_cases hc : c = singleQuote
    · subst hc
      by_cases hc2 : c2 = singleQuote
      · subst hc2
        rw [quotesPaired_cons_pair] at h
        have ih := quotesPaired_append_left rest y h
        simpa [quotesPaired_cons_pair] using ih
      · rw [quotesPaired_cons_alone _ _ hc2] at h
        exact absurd h (by decide)
    · rw [quotesPaired_cons_other _ _ hc] at h
      have ih := quotesPaired_append_left (c2 :: rest) y h
      simpa [quotesPaired_cons_other _ _ hc] using ih

theorem quotesPaired_append (x y : String) (hx : quotesPaired x.data = true)
    (hy : quotesPaired y.data = true) : quotesPaired (x ++ y).data = true := by
  rw [String.data_append, quotesPaired_append_left _ _ hx, hy]

theorem quotesPaired_stringsJoin (sep : String) (hsep : quotesPaired sep.data = true)
    (xs : List String) (h : ∀ x ∈ xs, quotesPaired x.data = true) :
    quotesPaired (stringsJoin xs sep).data = true := by
  induction xs with
  | nil => rfl
  | cons a rest ih =>
    have ha := h a (List.mem_cons_self a rest)
    have hrest := ih (fun x hx => h x (List.mem_cons_of_mem a hx))
    unfold stringsJoin
    split
    · exact ha
    · exact quotesPaired_append _ _ (quotesPaired_append _ _ ha hsep) hrest

theorem quotesPaired_escapeElement (e : String) : quotesPaired (escapeElement e).data = true := by
  unfold escapeElement
  rw [stringsReplaceAll_singleQuote]
  exact quotesPaired_doubleQuotes _

/-! ## Claims, continued -/

/-- C20, as it fails: a single quote in a relation name is not doubled. For the row
of the test with the relation name `o'brien` the key is `'public.o'brien'::regclass`,
whose body `public.o'brien` has an unpaired single quote; the statement contains
that key and does not contain `'public.o''brien'::regclass`. -/
theorem name_quote_not_doubled :
    starelidOf quoteStat = "'" ++ "public.o'brien" ++ "'::regclass" ∧
    quotesPaired "public.o'brien".data = false ∧
    (∃ q, getPgStatisticInsertQuery 14 quoteStat = .ok q ∧
      stringsContains q "'public.o'brien'::regclass" = true ∧
      stringsContains q "'public.o''brien'::regclass" = false) := by
  refine ⟨by decide, by decide, _, rfl, ?_, ?_⟩
  all_goals (set_option maxRecDepth 100000 in decide)

/-- C20, amended: every single quote of the text of a stavalues element is doubled
in the literal (the last replacement writes each single quote twice), so the body of
the first quoted literal of `array_in(...)` has its single quotes in adjacent pairs
only and no element text ends that literal early; the schema, relation and attribute
names and the type name are put between the quotes as they are. -/
theorem element_quotes_doubled_names_verbatim :
    (∀ s : String, (stringsReplaceAll s "'" "''").data = doubleQuotes s.data) ∧
    (∀ e : String,
      (escapeElement e).data =
        doubleQuotes
          (stringsReplaceAll (stringsReplaceAll e "\\\\" "\\\\\\") "\"" "\\\"").data) ∧
    (∀ (listVal : List GoValue) (typ : String), ∃ body : String,
      formatValuesArray (GoValue.list listVal) typ =
        "array_in('" ++ body ++ "', '" ++ typ ++ "'::regtype, -1)::anyarray" ∧
      quotesPaired body.data = true) ∧
    (∀ stat : PgStatisticStats,
      starelidOf stat = "'" ++ stat.Nspname ++ "." ++ stat.Relname ++ "'::regclass" ∧
      staattnumSubqueryOf stat =
        "(SELECT a.attnum FROM pg_attribute a WHERE a.attrelid = " ++ starelidOf stat ++
          " and a.attname = '" ++ stat.Attname ++ "')") := by
  refine ⟨stringsReplaceAll_singleQuote, ?_, ?_, fun stat => ⟨rfl, rfl⟩⟩
  · intro e
    unfold escapeElement
    rw [stringsReplaceAll_singleQuote]
  · intro listVal typ
    refine ⟨"\x7b" ++
      stringsJoin (listVal.map (fun e => "\"" ++ escapeElement (fmtV e) ++ "\"")) ", " ++ "\x7d",
      ?_, ?_⟩
    · have e1 : "array_in('\x7b" = "array_in('" ++ "\x7b" := by decide
      have e2 : "\x7d', '" = "\x7d" ++ "', '" := by decide
      simp only [formatValuesArray, foldl_snoc_map, List.nil_append]
      rw [e1, e2]
      simp only [String.append_assoc]
    · refine quotesPaired_append _ _ (quotesPaired_append _ _ (by decide) ?_) (by decide)
      refine quotesPaired_stringsJoin ", " (by decide) _ ?_
      intro x hx
      obtain ⟨e, _, rfl⟩ := List.mem_map.1 hx
      exact quotesPaired_append _ _
        (quotesPaired_append _ _ (by decide) (quotesPaired_escapeElement _)) (by decide)

/-! ## Lemmas for the scope filter -/

theorem relationNamesFilter_cons (r : String) (rest : List String) :
    relationNamesFilter (r :: rest) =
      " AND (c.oid IN (" ++
        stringsJoin ((r :: rest).map (fun name => "'" ++ name ++ "'::regclass::oid")) ", " ++
        ") OR c.oid IN (SELECT indexrelid FROM pg_index WHERE indrelid IN (" ++
        stringsJoin ((r :: rest).map (fun name => "'" ++ name ++ "'::regclass::oid")) ", " ++
        ")))" := by
  have h : (r :: rest).length > 0 := by simp
  simp only [relationNamesFilter, h, if_true, foldl_snoc_map, List.nil_append]

theorem extRelationNamesFilter_eq (relationNames : List String) :
    extRelationNamesFilter relationNames = relationNamesFilter relationNames := rfl

/-! ## Claims, continued -/

set_option maxRecDepth 100000 in
/-- C21: for an empty scope list the relation filter of `ExportStatistics` is the
empty text, so the `pg_class` query carries the schema exclusion alone; for a
non-empty list it is ` AND (c.oid IN (L) OR c.oid IN (SELECT indexrelid FROM
pg_index WHERE indrelid IN (L)))` with `L` the names in input order, each written
`'<name>'::regclass::oid`, joined by a comma and a space; the filter of
`ExportExtendedStatistics` is the same text for every scope list, and its descriptor
query carries it after the same schema exclusion. -/
theorem scope_filter_shape :
    relationNamesFilter [] = "" ∧
    schemasFilter = " AND n.nspname NOT IN ('pg_catalog', 'pg_toast', 'information_schema')" ∧
    queryClass [] =
      "\n\t\tSELECT row_to_json(t) FROM\n" ++
      "            (SELECT c.relname, c.relpages, c.reltuples, c.relallvisible, n.nspname\n" ++
      "                FROM pg_class c JOIN pg_namespace n on c.relnamespace = n.oid " ++
      " AND n.nspname NOT IN ('pg_catalog', 'pg_toast', 'information_schema')" ++ " ) t\n\t" ∧
    (∀ (r : String) (rest : List String),
      relationNamesFilter (r :: rest) =
        " AND (c.oid IN (" ++
          stringsJoin ((r :: rest).map (fun name => "'" ++ name ++ "'::regclass::oid")) ", " ++
          ") OR c.oid IN (SELECT indexrelid FROM pg_index WHERE indrelid IN (" ++
          stringsJoin ((r :: rest).map (fun name => "'" ++ name ++ "'::regclass::oid")) ", " ++
          ")))") ∧
    relationNamesFilter ["public.orders", "public.customers"] =
      " AND (c.oid IN ('public.orders'::regclass::oid, 'public.customers'::regclass::oid)" ++
      " OR c.oid IN (SELECT indexrelid FROM pg_index WHERE indrelid IN " ++
      "('public.orders'::regclass::oid, 'public.customers'::regclass::oid)))" ∧
    (∀ relationNames : List String,
      extRelationNamesFilter relationNames = relationNamesFilter relationNames) ∧
    (∀ relationNames : List String,
      queryExt relationNames =
        "\n        SELECT row_to_json(t) FROM \n" ++
        "            (SELECT c.relname, s.stxname, n.nspname, s.stxowner, s.stxstattarget, " ++
        "string_agg(a.attname, ',') as stxkeys, s.stxkind, s.stxexprs \n" ++
        "             FROM \n" ++
        "                pg_class c \n" ++
        "                JOIN pg_statistic_ext s ON c.oid = s.stxrelid \n" ++
        "                JOIN pg_attribute a ON c.oid = a.attrelid AND a.attnum = ANY(s.stxkeys)\n" ++
        "                JOIN pg_namespace n ON c.relnamespace = n.oid " ++
        schemasFilter ++ " " ++ relationNamesFilter relationNames ++ "\n" ++
        "                GROUP BY c.relname, s.stxname, n.nspname, s.stxowner, s.stxstattarget, " ++
        "s.stxkind, s.stxexprs) t\n    ") := by
  refine ⟨rfl, rfl, ?_, relationNamesFilter_cons, ?_, extRelationNamesFilter_eq, ?_⟩
  · decide
  · decide
  · intro relationNames
    rfl

set_option maxRecDepth 100000 in
/-- C28: the payload query of `ExportExtendedStatistics` is one fixed text: for any
two scope lists the second query sent is the same `pg_statistic_ext_data` query,
while the descriptor query sent first differs between an empty and a non-empty
scope; whatever the database answers, the replay script is therefore the same for
any two scope lists, made from all payload rows answered. -/
theorem payload_query_ignores_scope :
    (∀ relationNames₁ relationNames₂ : List String,
      (extendedStatisticsQueries relationNames₁).getD 1 "" =
        (extendedStatisticsQueries relationNames₂).getD 1 "") ∧
    (∀ relationNames : List String,
      extendedStatisticsQueries relationNames = [queryExt relationNames, queryExtData]) ∧
    stringsContains queryExtData "pg_statistic_ext_data" = true ∧
    stringsContains queryExtData "regclass" = false ∧
    queryExt ["public.orders"] ≠ queryExt [] ∧
    (∀ (ybMode : Bool) (relationNames₁ relationNames₂ : List String)
        (payloadRowsFor : String → List PgStatisticExtData),
      extendedStatisticsScript ybMode relationNames₁ payloadRowsFor =
        extendedStatisticsScript ybMode relationNames₂ payloadRowsFor) ∧
    (∀ (ybMode : Bool) (relationNames : List String)
        (payloadRowsFor : String → List PgStatisticExtData),
      extendedStatisticsScript ybMode relationNames payloadRowsFor =
        generateImportExtSQL ybMode (payloadRowsFor queryExtData)) := by
  refine ⟨fun _ _ => rfl, fun _ => rfl, ?_, ?_, ?_, fun _ _ _ _ => rfl, fun _ _ _ => rfl⟩
  · decide
  · decide
  · decide

/-! ## Lemmas for the per-expression array -/

theorem extArrayElements_eq (items : List GoValue) :
    extArrayElements items =
      (fieldMaps items).map
        (fun statMap => "(" ++ stringsJoin (extRowValues statMap) ", " ++ ")") := by
  have h : ∀ init : List String,
      items.foldl
        (fun arrayElements item =>
          match item with
          | .map statMap =>
            arrayElements ++ ["(" ++ stringsJoin (extRowValues statMap) ", " ++ ")"]
          | _ => arrayElements)
        init =
      init ++ (fieldMaps items).map
        (fun statMap => "(" ++ stringsJoin (extRowValues statMap) ", " ++ ")") := by
    induction items with
    | nil => intro init; simp [fieldMaps]
    | cons item rest ih =>
      intro init
      cases item <;> simp [fieldMaps, ih]
  unfold extArrayElements
  rw [h, List.nil_append]

theorem fieldMaps_length_le (items : List GoValue) : (fieldMaps items).length ≤ items.length := by
  induction items with
  | nil => simp [fieldMaps]
  | cons item rest ih =>
    cases item <;> simp [fieldMaps] <;> omega

theorem fieldMaps_maps (records : List (List (String × GoValue))) :
    fieldMaps (records.map GoValue.map) = records := by
  induction records with
  | nil => rfl
  | cons r rest ih => simp [fieldMaps, ih]

theorem extKeys_eq_if (statMap : List (String × GoValue)) :
    extKeys statMap =
      ["starelid", "staattnum", "stainherit", "stanullfrac", "stawidth", "stadistinct",
       "stakind1", "stakind2", "stakind3", "stakind4", "stakind5",
       "staop1", "staop2", "staop3", "staop4", "staop5"] ++
      (if (mapLookup statMap "stacoll1").isSome then collKeys else []) ++
      ["stanumbers1", "stanumbers2", "stanumbers3", "stanumbers4", "stanumbers5",
       "stavalues1", "stavalues2", "stavalues3", "stavalues4", "stavalues5"] := by
  unfold extKeys
  cases mapLookup statMap "stacoll1" <;> rfl

/-! ## Claims, continued -/

set_option maxRecDepth 100000 in
/-- C25, as it fails: an element that is not a field map shortens the array without
an error. For a per-expression array of one record and one JSON string the
function returns a script, and the emitted array holds one record for two
elements; an array of one JSON string alone gives `ARRAY[]::pg_statistic[]`. -/
theorem non_map_element_is_dropped :
    mixedPayload.Stxdexpr = some [GoValue.map slotRecord, GoValue.str "junk"] ∧
    (extArrayElements [GoValue.map slotRecord, GoValue.str "junk"]).length = 1 ∧
    [GoValue.map slotRecord, GoValue.str "junk"].length = 2 ∧
    (∃ q, generateImportExtSQL false [mixedPayload] = .ok q) ∧
    stxdexprText mixedPayload =
      "ARRAY[" ++ "(" ++ stringsJoin (extRowValues slotRecord) ", " ++ ")" ++
        "]::pg_statistic[]" ∧
    stxdexprText (withExprRecords mixedPayload []) = "ARRAY[]::pg_statistic[]" ∧
    extArrayElements [GoValue.str "junk"] = [] := by
  refine ⟨rfl, ?_, rfl, ⟨_, rfl⟩, ?_, ?_, ?_⟩
  · decide
  · decide
  · decide
  · decide

/-- C25, amended: `generateImportExtSQL` never fails; it emits one parenthesized
record for every element of `Stxdexpr` that is a field map, in input order, and
passes over every other element, so the number of records in the emitted
`ARRAY[...]` is the number of field-map elements, at most the number of elements
and equal to it when all elements are field maps. -/
theorem one_record_per_field_map :
    (∀ items : List GoValue,
      extArrayElements items =
        (fieldMaps items).map
          (fun statMap => "(" ++ stringsJoin (extRowValues statMap) ", " ++ ")") ∧
      (extArrayElements items).length = (fieldMaps items).length ∧
      (extArrayElements items).length ≤ items.length) ∧
    (∀ records : List (List (String × GoValue)),
      (extArrayElements (records.map GoValue.map)).length = records.length) ∧
    (∀ (item : GoValue) (rest : List GoValue),
      fieldMaps (item :: rest) =
        match item with
        | GoValue.map statMap => statMap :: fieldMaps rest
        | _ => fieldMaps rest) ∧
    (∀ (ybMode : Bool) (pgStatExtData : List PgStatisticExtData),
      ∃ q, generateImportExtSQL ybMode pgStatExtData = .ok q) := by
  refine ⟨fun items => ⟨extArrayElements_eq items, ?_, ?_⟩, ?_, ?_, fun _ _ => ⟨_, rfl⟩⟩
  · rw [extArrayElements_eq, List.length_map]
  · rw [extArrayElements_eq, List.length_map]
    exact fieldMaps_length_le items
  · intro records
    rw [extArrayElements_eq, List.length_map, fieldMaps_maps]
  · intro item rest
    cases item <;> rfl

set_option maxRecDepth 100000 in
/-- C26: the field order of a per-expression record holds the collation fields
`stacoll1..5`, all five after staop1..5, when the record has the key `stacoll1`,
and none of them otherwise; the record then has 31 values, otherwise 26. Nothing
else enters the decision: a record with the keys `stacoll2` to `stacoll5` and
without `stacoll1` is emitted with 26 values and no collation field, while a record
with the key `stacoll1` alone is emitted with 31. -/
theorem ext_collation_fields_iff_stacoll1 :
    (∀ statMap : List (String × GoValue),
      extKeys statMap =
        ["starelid", "staattnum", "stainherit", "stanullfrac", "stawidth", "stadistinct",
         "stakind1", "stakind2", "stakind3", "stakind4", "stakind5",
         "staop1", "staop2", "staop3", "staop4", "staop5"] ++
        (if (mapLookup statMap "stacoll1").isSome then
          ["stacoll1", "stacoll2", "stacoll3", "stacoll4", "stacoll5"]
         else []) ++
        ["stanumbers1", "stanumbers2", "stanumbers3", "stanumbers4", "stanumbers5",
         "stavalues1", "stavalues2", "stavalues3", "stavalues4", "stavalues5"] ∧
      (extRowValues statMap).length =
        (if (mapLookup statMap "stacoll1").isSome then 31 else 26)) ∧
    (mapLookup collTailRecord "stacoll1").isSome = false ∧
    ((extKeys collTailRecord).filter (fun k => decide (k ∈ collKeys))) = [] ∧
    extRowValues collTailRecord = List.replicate 26 "NULL" ∧
    extRowValues [("stacoll1", GoValue.float ten)] =
      List.replicate 16 "NULL" ++ ["'10'"] ++ List.replicate 14 "NULL" := by
  refine ⟨fun statMap => ⟨extKeys_eq_if statMap, ?_⟩, ?_, ?_, ?_, ?_⟩
  · rw [extRowValues_eq, List.length_map, extKeys_eq_if]
    cases mapLookup statMap "stacoll1" <;> rfl
  · decide
  · decide
  · decide
  · decide

set_option maxRecDepth 100000 in
/-- C27: a values list under a key that starts with `stavalues` is always written
with the element type `pg_catalog.int4`: the text is
`array_in('{..}', 'pg_catalog.int4'::regtype, -1)::anyarray` for every list, and a
record whose `stavalues1` is a list has that text among its values whatever its
other fields are; a list of the texts `a` and `b` is typed `pg_catalog.int4` too. -/
theorem ext_stavalues_typed_int4 :
    (∀ (suffix : String) (vals : List GoValue),
      renderExtValue ("stavalues" ++ suffix) (GoValue.list vals) =
        "array_in('\x7b" ++
          stringsJoin (vals.map (fun v => "\"" ++ escapeExtElement (fmtV v) ++ "\"")) "," ++
          "\x7d', 'pg_catalog.int4'::regtype, -1)::anyarray") ∧
    (∀ (vals : List GoValue) (others : List (String × GoValue)),
      "array_in('\x7b" ++
          stringsJoin (vals.map (fun v => "\"" ++ escapeExtElement (fmtV v) ++ "\"")) "," ++
          "\x7d', 'pg_catalog.int4'::regtype, -1)::anyarray" ∈
        extRowValues (("stavalues1", GoValue.list vals) :: others)) ∧
    renderExtValue "stavalues1" (GoValue.list [GoValue.str "a", GoValue.str "b"]) =
      "array_in('\x7b\"a\",\"b\"\x7d', 'pg_catalog.int4'::regtype, -1)::anyarray" := by
  have hrender : ∀ (suffix : String) (vals : List GoValue),
      renderExtValue ("stavalues" ++ suffix) (GoValue.list vals) =
        "array_in('\x7b" ++
          stringsJoin (vals.map (fun v => "\"" ++ escapeExtElement (fmtV v) ++ "\"")) "," ++
          "\x7d', 'pg_catalog.int4'::regtype, -1)::anyarray" := by
    intro suffix vals
    have h1 : stringsHasPrefix ("stavalues" ++ suffix) "stanumbers" = false := rfl
    have h2 : stringsHasPrefix ("stavalues" ++ suffix) "stavalues" = true :=
      stringsHasPrefix_append "stavalues" suffix
    simp only [renderExtValue, h1, h2, if_true, Bool.false_eq_true, if_false, foldl_snoc_map,
      List.nil_append]
  refine ⟨hrender, ?_, ?_⟩
  · intro vals others
    rw [extRowValues_eq]
    refine List.mem_map.2 ⟨"stavalues1", ?_, ?_⟩
    · rw [extKeys_eq_if]
      simp
    · have hk : mapLookup (("stavalues1", GoValue.list vals) :: others) "stavalues1" =
          some (GoValue.list vals) := by
        simp [mapLookup, List.lookup]
      have hs : "stavalues1" = "stavalues" ++ "1" := by decide
      rw [hk]
      simp only []
      rw [hs, hrender]
  · decide

/-! ## Lemmas for the run -/

theorem dumpGFlags_err (cfg : Config) (w : World) (out : List String) :
    (dumpGFlags cfg w out).err = none := by
  unfold dumpGFlags
  by_cases hyb : cfg.YBMode = true
  · simp only [hyb, if_true]
    cases (ExportGFlags cfg w).err <;> rfl
  · simp only [hyb, if_false]
    rfl

theorem dumpGFlags_warning (cfg : Config) (w : World) (out : List String) (e : String)
    (hyb : cfg.YBMode = true) (he : (ExportGFlags cfg w).err = some e) :
    (dumpGFlags cfg w out).stdout.getLast? = some ("Warning: " ++ e ++ "\n") := by
  unfold dumpGFlags
  simp [hyb, he]

theorem Dump_reaches_gflags (cfg : Config) (w : World) (relationNames : List String)
    (hq : dumpQueryFile cfg w = .ok relationNames)
    (hddl : w.exportDDL relationNames = none)
    (hstat : w.exportStatistics relationNames = none)
    (hext : w.exportExtendedStatistics relationNames = none)
    (hver : w.exportVersion = none)
    (hguc : w.exportOverriddenGUCs = none) :
    ∃ out : List String, Dump cfg w = dumpGFlags cfg w out := by
  have hif : ∀ c : Prop, ∀ _ : Decidable c,
      (if c then w.exportExtendedStatistics relationNames else none) = none := by
    intro c _
    split
    · exact hext
    · rfl
  simp only [Dump, hq, hddl, hstat, hif, hver, hguc]
  exact ⟨_, rfl⟩

/-! ## Claims, continued -/

/-- C22 (the code departs from it): the error of the server-version query that
`Dump` sends at line 91 is dropped. For every configuration and run, a failing
answer to that query gives the same result as the empty text for an answer; in a
run where only that query fails `Dump` returns no error and prints nothing, the
extended statistics being passed over, while the same run with the answer `150004`
reaches the export of the extended statistics and returns its error. -/
theorem failed_version_query_is_dropped :
    (∀ (cfg : Config) (w : World) (e : String),
      Dump cfg (withVersionAnswer w (.error e)) = Dump cfg (withVersionAnswer w (.ok ""))) ∧
    versionQueryFails =
      withVersionAnswer extendedStatisticsFail
        (.error "ERROR: canceling statement due to user request") ∧
    (Dump (plainConfig false) versionQueryFails).err = none ∧
    (Dump (plainConfig false) versionQueryFails).stdout = [] ∧
    (Dump (plainConfig false) extendedStatisticsFail).err =
      some "failed to export extended statistics: failed to query pg_statistic_ext: timeout" := by
  refine ⟨fun _ _ _ => rfl, rfl, ?_, ?_, ?_⟩
  · decide
  · decide
  · decide

/-- C23: when the stages before it returned no error, `Dump` returns no error
whatever `ExportGFlags` does; in `YBMode`, when `ExportGFlags` returns an error the
last text `Dump` prints is `Warning: ` followed by that error; `ExportGFlags` itself
returns no error when the endpoint cannot be reached and prints a warning then;
and it returns an error when the body cannot be read, the response cannot be
parsed, or the file cannot be written. -/
theorem gflags_failure_is_not_fatal (cfg : Config) (w : World) (relationNames : List String)
    (hq : dumpQueryFile cfg w = .ok relationNames)
    (hddl : w.exportDDL relationNames = none)
    (hstat : w.exportStatistics relationNames = none)
    (hext : w.exportExtendedStatistics relationNames = none)
    (hver : w.exportVersion = none)
    (hguc : w.exportOverriddenGUCs = none) :
    (Dump cfg w).err = none ∧
    (cfg.YBMode = true → ∀ e : String, (ExportGFlags cfg w).err = some e →
      (Dump cfg w).stdout.getLast? = some ("Warning: " ++ e ++ "\n")) ∧
    (∀ e : String, w.httpGet ("http://" ++ cfg.Host ++ ":7000/api/v1/varz") = some e →
      ExportGFlags cfg w = ⟨none, ["Warning: failed to fetch gflags: " ++ e ++ "\n"]⟩) ∧
    (w.httpGet ("http://" ++ cfg.Host ++ ":7000/api/v1/varz") = none →
      (w.readAll ≠ none ∨ w.jsonUnmarshal ≠ none ∨ w.jsonMarshalIndent ≠ none ∨
        w.writeGFlagsFile ≠ none) →
      (ExportGFlags cfg w).err ≠ none) := by
  obtain ⟨out, hD⟩ := Dump_reaches_gflags cfg w relationNames hq hddl hstat hext hver hguc
  refine ⟨?_, ?_, ?_, ?_⟩
  · rw [hD]
    exact dumpGFlags_err cfg w out
  · intro hyb e he
    rw [hD]
    exact dumpGFlags_warning cfg w out e hyb he
  · intro e he
    simp only [ExportGFlags, he]
  · intro hget hfail
    simp only [ExportGFlags, hget]
    cases h1 : w.readAll with
    | some e => simp
    | none =>
      cases h2 : w.jsonUnmarshal with
      | some e => simp
      | none =>
        cases h3 : w.jsonMarshalIndent with
        | some e => simp
        | none =>
          cases h4 : w.writeGFlagsFile with
          | some e => simp
          | none => simp [h1, h2, h3, h4] at hfail

/-- C23, at a run: with `YBMode` on and a flags endpoint that answers with a body
that is not JSON, every stage before succeeds, `Dump` returns no error, and the one
text it prints is the warning. -/
theorem gflags_failure_is_not_fatal_witness :
    dumpQueryFile (plainConfig true) badFlagsBody = .ok [] ∧
    (ExportGFlags (plainConfig true) badFlagsBody).err =
      some "failed to parse gflags json: invalid character '<'" ∧
    (Dump (plainConfig true) badFlagsBody).err = none ∧
    (Dump (plainConfig true) badFlagsBody).stdout.getLast? =
      some ("Warning: " ++ "failed to parse gflags json: invalid character '<'" ++ "\n") :=
  ⟨rfl, rfl,
    (gflags_failure_is_not_fatal (plainConfig true) badFlagsBody [] rfl rfl rfl rfl rfl rfl).1,
    (gflags_failure_is_not_fatal (plainConfig true) badFlagsBody [] rfl rfl rfl rfl rfl rfl).2.1
      rfl _ rfl⟩

end CboStatDump
